import Mathlib

/-
Verification of the collaborative-annotation backend's lock manager,
annotation write path, job state machine, task failure boundary,
auto-annotate pipeline and job progress stream.

Shallow embedding conventions:
* SQLAlchemy tables become lists of rows inside a `Db` record; autoincrement
  primary keys are modelled with explicit `next_*` counters.
* `datetime` values become `Int` timestamps; `datetime.utcnow()` is a `now`
  parameter.
* Python floats that are only carried through (coordinates, confidence,
  progress) become `Rat`.
* A FastAPI endpoint becomes a function returning `RResult`, which carries the
  committed database state in both the success and the error case: raising an
  `HTTPException` makes `get_db` (db/session.py) close the session, rolling
  back everything not yet committed, so an error result carries the state as
  of the last `db.commit()`.
-/

namespace App

/-- An `HTTPException(status_code=..., detail=...)`. -/
structure Http where
  status : Nat
  detail : String
deriving Repr, DecidableEq

/-- Row of `users` (models.py). Only the fields the verified routes read. -/
structure User where
  id : Int
  role : String
deriving Repr, DecidableEq

/-- Row of `project_members` (models.py). -/
structure ProjectMember where
  project_id : Int
  user_id : Int
deriving Repr, DecidableEq

/-- Row of `datasets` (models.py). -/
structure Dataset where
  id : Int
  project_id : Int
deriving Repr, DecidableEq

/-- Row of `dataset_items` (models.py). -/
structure DatasetItem where
  id : Int
  dataset_id : Int
deriving Repr, DecidableEq

/-- Row of `label_classes` (models.py). -/
structure LabelClass where
  id : Int
  project_id : Int
  name : String
deriving Repr, DecidableEq

/-- Row of `annotation_sets` (models.py). -/
structure AnnotationSet where
  id : Int
  project_id : Int
  name : String
  source : String
  model_weight_id : Option Int
deriving Repr, DecidableEq

/-- Row of `model_weights` (models.py). -/
structure ModelWeight where
  id : Int
  project_id : Int
  framework : String
  rel_path : String
deriving Repr, DecidableEq

/-- Row of `annotations` (models.py). `attributes` (a JSON object) is
modelled as an association list. -/
structure Annotation where
  id : Int
  annotation_set_id : Int
  dataset_item_id : Int
  class_id : Int
  x : Rat
  y : Rat
  w : Rat
  h : Rat
  confidence : Option Rat
  approved : Bool
  attributes : List (String × String)
  updated_at : Int
deriving Repr, DecidableEq

/-- Row of `annotation_locks` (models.py:153-161). The table declares
`UniqueConstraint("annotation_set_id", "dataset_item_id")`. -/
structure AnnotationLock where
  id : Int
  annotation_set_id : Int
  dataset_item_id : Int
  locked_by_user_id : Int
  locked_at : Int
  expires_at : Int
deriving Repr, DecidableEq

/-- Row of `audit_logs` (models.py). `details` is modelled as an association
list of the integer-valued keys the replace route writes. -/
structure AuditLog where
  project_id : Int
  user_id : Int
  action : String
  entity_type : String
  entity_id : Int
  details : List (String × Int)
deriving Repr, DecidableEq

/-- Row of `jobs` (models.py:178-188). The free-form JSON `payload` is
modelled per job kind as a separate typed argument to the task model. -/
structure Job where
  id : Int
  project_id : Int
  job_type : String
  status : String
  progress : Rat
  message : String
  created_at : Int
  updated_at : Int
deriving Repr, DecidableEq

/-- The relational store shared by the verified routes and tasks. -/
structure Db where
  project_members : List ProjectMember
  datasets : List Dataset
  dataset_items : List DatasetItem
  label_classes : List LabelClass
  annotation_sets : List AnnotationSet
  model_weights : List ModelWeight
  annotations : List Annotation
  annotation_locks : List AnnotationLock
  audit_logs : List AuditLog
  jobs : List Job
  next_lock_id : Int
  next_annotation_id : Int
  next_aset_id : Int
deriving Repr, DecidableEq

/-- Result of an endpoint call: the committed database state together with
either the response value or the raised `HTTPException`. -/
inductive RResult (α : Type) where
  | ok : Db → α → RResult α
  | err : Db → Http → RResult α
deriving Repr, DecidableEq

/-- `require_project_access` (core/deps.py:50-55). -/
def require_project_access (project_id : Int) (db : Db) (user : User) :
    Except Http Unit :=
  if user.role = "admin" then .ok ()
  else
    match db.project_members.find?
        (fun m => m.project_id == project_id && m.user_id == user.id) with
    | some _ => .ok ()
    | none => .error ⟨403, "no project access"⟩

/-- `_require_item_access` (annotations.py:32-42). -/
def require_item_access (item_id : Int) (db : Db) (user : User) :
    Except Http DatasetItem :=
  match db.dataset_items.find? (fun it => it.id == item_id) with
  | none => .error ⟨404, "item not found"⟩
  | some it =>
    match db.datasets.find? (fun d => d.id == it.dataset_id) with
    | none => .error ⟨404, "dataset not found"⟩
    | some ds =>
      match require_project_access ds.project_id db user with
      | .error e => .error e
      | .ok _ => .ok it

/-- `LOCK_MINUTES` (annotations.py:29). -/
def LOCK_MINUTES : Int := 10

/-- `_pick_aset_id` (annotations.py:45-50): body value, falling back to the
query value when the body value is absent or falsy (`0`), then `int(v or 0)`. -/
def pick_aset_id (payload_aset : Option Int) (q_aset : Option Int) : Int :=
  let v : Option Int :=
    match payload_aset with
    | some a => if a = 0 then q_aset else some a
    | none => q_aset
  match v with
  | some a => a
  | none => 0

/-- `_pick_ttl_seconds` (annotations.py:53-60): default `LOCK_MINUTES * 60`
when absent or falsy, then clamp to `[30, 3600]`. -/
def pick_ttl_seconds (payload_ttl : Option Int) : Int :=
  let ttl : Int :=
    match payload_ttl with
    | some t => if t = 0 then LOCK_MINUTES * 60 else t
    | none => LOCK_MINUTES * 60
  max 30 (min 3600 ttl)

/-- Response of `acquire_lock` (`expires_at` kept as a timestamp rather than
its ISO rendering). -/
structure LockResp where
  ok : Bool
  expires_at : Int
deriving Repr, DecidableEq

/-- Response of `release_lock`. -/
structure OkResp where
  ok : Bool
deriving Repr, DecidableEq

/-- The in-place renewal branch of `acquire_lock` (annotations.py:112-115):
SQLAlchemy mutates the row returned by `.first()`, i.e. the first row
matching the pair. -/
def renew_first (ls : List AnnotationLock) (aset_id item_id : Int)
    (now exp : Int) : List AnnotationLock :=
  match ls with
  | [] => []
  | l :: rest =>
    if l.annotation_set_id == aset_id && l.dataset_item_id == item_id then
      { l with expires_at := exp, locked_at := now } :: rest
    else
      l :: renew_first rest aset_id item_id now exp

/-- `acquire_lock` (annotations.py:63-118). The JSON body is modelled by the
two fields the handler reads (`annotation_set_id`, `ttl_seconds`). -/
def acquire_lock (db : Db) (item_id : Int)
    (payload_aset payload_ttl q_aset : Option Int)
    (user : User) (now : Int) : RResult LockResp :=
  match require_item_access item_id db user with
  | .error e => .err db e
  | .ok it =>
    let aset_id := pick_aset_id payload_aset q_aset
    if aset_id ≤ 0 then .err db ⟨400, "annotation_set_id required"⟩
    else
      -- clean expired locks, committed at once (annotations.py:85-86)
      let db1 := { db with annotation_locks :=
        db.annotation_locks.filter (fun l => !(decide (l.expires_at < now))) }
      match db1.annotation_locks.find?
          (fun l => l.annotation_set_id == aset_id && l.dataset_item_id == it.id) with
      | some lock =>
        if lock.locked_by_user_id != user.id then
          .err db1 ⟨409, "locked by another user"⟩
        else
          let exp := now + pick_ttl_seconds payload_ttl
          let db2 :=
            { db1 with annotation_locks :=
                renew_first db1.annotation_locks aset_id it.id now exp }
          .ok db2 ⟨true, exp⟩
      | none =>
        let exp := now + pick_ttl_seconds payload_ttl
        let newLock : AnnotationLock :=
          ⟨db1.next_lock_id, aset_id, it.id, user.id, now, exp⟩
        .ok { db1 with
              annotation_locks := db1.annotation_locks ++ [newLock],
              next_lock_id := db1.next_lock_id + 1 }
           ⟨true, exp⟩

/-- `release_lock` (annotations.py:121-144): deletes only rows matching the
pair and owned by the requesting user; always answers `{ok: true}`. -/
def release_lock (db : Db) (item_id : Int)
    (payload_aset q_aset : Option Int) (user : User) : RResult OkResp :=
  match require_item_access item_id db user with
  | .error e => .err db e
  | .ok _ =>
    let aset_id := pick_aset_id payload_aset q_aset
    if aset_id ≤ 0 then .err db ⟨400, "annotation_set_id required"⟩
    else
      .ok { db with annotation_locks :=
             db.annotation_locks.filter (fun l =>
               !(l.annotation_set_id == aset_id &&
                 l.dataset_item_id == item_id &&
                 l.locked_by_user_id == user.id)) }
         ⟨true⟩

/-- One element of the `replace_annotations` request body
(`AnnotationIn`, schemas.py:65-74). The handler never reads `id`. -/
structure AnnotationIn where
  id : Option Int
  class_id : Int
  x : Rat
  y : Rat
  w : Rat
  h : Rat
  confidence : Option Rat
  approved : Bool
  attributes : Option (List (String × String))
deriving Repr, DecidableEq

/-- `a.attributes or {}` (annotations.py:223): Python `or` maps a missing (or
empty, which coincides) mapping to the empty mapping. -/
def attrs_or_empty : Option (List (String × String)) → List (String × String)
  | none => []
  | some d => d

/-- The validate-and-insert loop of `replace_annotations`
(annotations.py:209-226): each incoming annotation's `class_id` must match
some row of `label_classes` (matched by id only); the first failure raises
400 with the offending id. Inserted rows are pending until the commit that
follows the loop. -/
def insert_annotations_loop (db : Db) (item_id aset_id : Int)
    (payload : List AnnotationIn) (now : Int) : Except Http Db :=
  match payload with
  | [] => .ok db
  | a :: rest =>
    match db.label_classes.find? (fun c => c.id == a.class_id) with
    | none => .error ⟨400, "class_id " ++ toString a.class_id ++ " invalid"⟩
    | some _ =>
      let ann : Annotation :=
        { id := db.next_annotation_id
          annotation_set_id := aset_id
          dataset_item_id := item_id
          class_id := a.class_id
          x := a.x, y := a.y, w := a.w, h := a.h
          confidence := a.confidence
          approved := a.approved
          attributes := attrs_or_empty a.attributes
          updated_at := now }
      insert_annotations_loop
        { db with annotations := db.annotations ++ [ann],
                  next_annotation_id := db.next_annotation_id + 1 }
        item_id aset_id rest now

/-- `replace_annotations` (annotations.py:171-250). An error result carries
the original committed state: no commit happens before the lock check, the
delete and the insert loop, so a 409 or 400 rolls everything back when
`get_db` closes the session. -/
def replace_annotations (db : Db) (item_id : Int)
    (payload : List AnnotationIn) (annotation_set_id : Int)
    (user : User) (now : Int) : RResult (List Annotation) :=
  match require_item_access item_id db user with
  | .error e => .err db e
  | .ok item =>
    match db.annotation_sets.find? (fun s => s.id == annotation_set_id) with
    | none => .err db ⟨404, "annotation set not found"⟩
    | some _ =>
      -- lock enforcement: must hold lock to save, unless admin
      -- (annotations.py:185-202)
      let lock_ok : Bool :=
        if user.role == "admin" then true
        else
          (db.annotation_locks.find? (fun l =>
            l.annotation_set_id == annotation_set_id &&
            l.dataset_item_id == item_id &&
            l.locked_by_user_id == user.id &&
            decide (now ≤ l.expires_at))).isSome
      if !lock_ok then
        .err db ⟨409, "no active lock (open image again to acquire lock)"⟩
      else
        let working :=
          { db with annotations := db.annotations.filter (fun a =>
              !(a.dataset_item_id == item_id &&
                a.annotation_set_id == annotation_set_id)) }
        match insert_annotations_loop working item_id annotation_set_id
            payload now with
        | .error e => .err db e
        | .ok w2 =>
          -- db.commit() (annotations.py:227), then the audit append
          match w2.datasets.find? (fun d => d.id == item.dataset_id) with
          | none =>
            -- `ds.project_id` on `None`; unreachable once item access held
            .err w2 ⟨500, "internal server error"⟩
          | some ds =>
            let w3 :=
              { w2 with audit_logs := w2.audit_logs ++
                  [⟨ds.project_id, user.id, "annotation.replace",
                    "dataset_item", item_id,
                    [("annotation_set_id", annotation_set_id),
                     ("count", (payload.length : Int))]⟩] }
            .ok w3 (w3.annotations.filter (fun a =>
              a.dataset_item_id == item_id &&
              a.annotation_set_id == annotation_set_id))

/-- `_update_job` (workers/tasks.py:30-45): partial field update, always
advancing `updated_at`; there is no guard on the current status. -/
def update_job (job : Job) (status : Option String) (progress : Option Rat)
    (message : Option String) (now : Int) : Job :=
  let j1 := match status with
    | some s => { job with status := s }
    | none => job
  let j2 := match progress with
    | some p => { j1 with progress := p }
    | none => j1
  let j3 := match message with
    | some m => { j2 with message := m }
    | none => j2
  { j3 with updated_at := now }

/-- Persist a job row by id (`db.add(job); db.commit()`). -/
def db_set_job (db : Db) (j : Job) : Db :=
  { db with jobs := db.jobs.map (fun k => if k.id == j.id then j else k) }

/-- `.query(Job).filter(Job.id == job_id).first()`. -/
def db_find_job (db : Db) (job_id : Int) : Option Job :=
  db.jobs.find? (fun j => j.id == job_id)

/-- `_update_job` applied to the store. -/
def update_job_db (db : Db) (job : Job) (status : Option String)
    (progress : Option Rat) (message : Option String) (now : Int) :
    Db × Job :=
  let j := update_job job status progress message now
  (db_set_job db j, j)

/-- Outcome of a task body: either it returns, or an exception with
description `str(e)` escapes it, leaving the store in the given state
(the body commits incrementally as it runs). -/
inductive BodyOutcome where
  | done : Db → BodyOutcome
  | raised : Db → String → BodyOutcome

/-- The failure boundary shared by `auto_annotate_task` (tasks.py:390-517)
and `train_yolo_task` (tasks.py:537-952): find the job, run the body; if an
exception escapes the body, mark the job `failed` with the exception's
description inside a nested `try` whose own exception is swallowed.

The train variant re-queries the job inside the handler; the auto variant
still holds the live ORM row found at the start — both are modelled as a
lookup in the store at handler time. `report_raises` says whether the
failure-reporting attempt itself raises (e.g. the database went away); in
that case no update lands and nothing propagates. The second component is
the exception propagating out of the task, `none` in every branch because
the `except Exception` clause is total. -/
def task_failure_boundary (db : Db) (job_id : Int)
    (body : Db → Job → BodyOutcome) (report_raises : Bool) (now : Int) :
    Db × Option String :=
  match db_find_job db job_id with
  | none => (db, none)
  | some job =>
    match body db job with
    | .done db1 => (db1, none)
    | .raised db1 e =>
      if report_raises then (db1, none)
      else
        match db_find_job db1 job_id with
        | none => (db1, none)
        | some j1 =>
          ((update_job_db db1 j1 (some "failed") none (some e) now).1, none)

/-- The projection of a job pushed over the websocket (ws.py:24-29);
`job.message or ""` is the identity on the non-nullable `message` column. -/
structure WsPayload where
  id : Int
  status : String
  progress : Rat
  message : String
deriving Repr, DecidableEq

/-- ws.py:24-29. -/
def job_payload_projection (j : Job) : WsPayload :=
  ⟨j.id, j.status, j.progress, j.message⟩

/-- The statuses on which the stream stops (ws.py:35). -/
def ws_terminal_statuses : List String :=
  ["success", "done", "failed", "canceled"]

/-- Observable effect of one tick of `ws_job_progress`. -/
structure WsTick where
  sent : Option WsPayload
  last : Option WsPayload
  close : Bool
deriving Repr, DecidableEq

/-- One iteration of the `while True` loop of `ws_job_progress`
(ws.py:15-40): `job?` is what the fresh per-tick session query returned,
`last` the last payload pushed. A missing job pushes the placeholder and
keeps looping; an existing job's projection is pushed only when it differs
from `last`, and the loop breaks once the status is terminal. -/
def ws_job_progress_tick (job_id : Int) (job? : Option Job)
    (last : Option WsPayload) : WsTick :=
  match job? with
  | none =>
    { sent := some ⟨job_id, "missing", 0, "job not found"⟩
      last := last
      close := false }
  | some job =>
    let payload := job_payload_projection job
    if some payload = last then
      { sent := none, last := last,
        close := ws_terminal_statuses.contains job.status }
    else
      { sent := some payload, last := some payload,
        close := ws_terminal_statuses.contains job.status }

/-- One prediction returned by `predict_bboxes`
(a dict with `cls_idx`, `xywh`, `conf`). -/
structure Pred where
  cls_idx : Nat
  x : Rat
  y : Rat
  w : Rat
  h : Rat
  conf : Option Rat
deriving Repr, DecidableEq

/-- The fields of `job.payload` that `auto_annotate_task` reads
(tasks.py:400-405); `conf` and `iou` are forwarded verbatim to the
inference collaborator and are absorbed into the `predict` oracle. -/
structure AutoPayload where
  model_id : Int
  dataset_id : Int
  device : String
deriving Repr, DecidableEq

/-- External collaborators of `auto_annotate_task`: CUDA availability,
existence of the weights file and of each item's image on disk, the loaded
model's class-name table, the inference call (which may raise, per item id),
and the `utcnow().strftime` tag used in the generated set name. -/
structure AutoEnv where
  cuda_available : Bool
  weights_exists : Bool
  model_names : List String
  img_exists : Int → Bool
  predict : Int → Except String (List Pred)
  run_tag : String

/-- Python's `str.lower()` on one character (ASCII case mapping, written
out so that it reduces in the kernel). -/
def char_lower (c : Char) : Char :=
  if 65 <= c.toNat ∧ c.toNat <= 90 then Char.ofNat (c.toNat + 32) else c

/-- Python's `str.lower()`. -/
def str_lower (s : String) : String :=
  ⟨s.data.map char_lower⟩

/-- `{c.name.lower(): c.id for c in classes}` (tasks.py:459) looked up at a
key: a Python dict comprehension keeps the last binding of a duplicate key. -/
def name_to_class_id (classes : List LabelClass) (key : String) :
    Option Int :=
  (classes.reverse.find? (fun c => str_lower c.name == key)).map
    (fun c => c.id)

/-- Resolution of one prediction to a project class id (tasks.py:480-486):
the predicted class name — falling back to the stringified index when the
name table has no entry for `cls_idx` — looked up in the project's
name-to-id table. -/
def pred_target (env : AutoEnv) (classes : List LabelClass) (p : Pred) :
    Option Int :=
  let cls_name :=
    match env.model_names.get? p.cls_idx with
    | some nm => str_lower nm
    | none => toString p.cls_idx
  name_to_class_id classes cls_name

/-- The per-prediction inner loop (tasks.py:479-500): resolve the predicted
class, skip it when the project has no class of that name — `if not
target_id` also skips a class whose id is `0` — otherwise insert an
annotation row. Returns the store plus the running created/skipped counts. -/
def process_preds (env : AutoEnv) (classes : List LabelClass)
    (aset_id item_id : Int) (now : Int) :
    List Pred → Db → Nat → Nat → Db × Nat × Nat
  | [], db, created, skipped => (db, created, skipped)
  | p :: rest, db, created, skipped =>
    match pred_target env classes p with
    | none =>
      process_preds env classes aset_id item_id now rest db created
        (skipped + 1)
    | some target_id =>
      if target_id = 0 then
        process_preds env classes aset_id item_id now rest db created
          (skipped + 1)
      else
        let ann : Annotation :=
          { id := db.next_annotation_id
            annotation_set_id := aset_id
            dataset_item_id := item_id
            class_id := target_id
            x := p.x, y := p.y, w := p.w, h := p.h
            confidence := p.conf
            approved := false
            attributes := []
            updated_at := now }
        process_preds env classes aset_id item_id now rest
          { db with annotations := db.annotations ++ [ann],
                    next_annotation_id := db.next_annotation_id + 1 }
          (created + 1) skipped

/-- The per-item loop (tasks.py:468-503), with `idx` the 1-based
`enumerate` counter: a missing image file skips the item without a progress
update; an inference exception records an error message and continues;
otherwise predictions are processed, committed, and progress advances. -/
def auto_annotate_loop (env : AutoEnv) (classes : List LabelClass)
    (aset_id : Int) (total : Nat) (now : Int) :
    List DatasetItem → Nat → Db → Job → Nat → Nat → Db × Job × Nat × Nat
  | [], _, db, job, created, skipped => (db, job, created, skipped)
  | it :: rest, idx, db, job, created, skipped =>
    if !(env.img_exists it.id) then
      auto_annotate_loop env classes aset_id total now rest (idx + 1)
        db job created skipped
    else
      match env.predict it.id with
      | .error e =>
        let s1 := update_job_db db job none
          (some ((idx : Rat) / (total : Rat)))
          (some ("error processing " ++ toString idx ++ "/" ++
            toString total ++ ": " ++ e)) now
        auto_annotate_loop env classes aset_id total now rest (idx + 1)
          s1.1 s1.2 created skipped
      | .ok preds =>
        let r := process_preds env classes aset_id it.id now preds db
          created skipped
        let s1 := update_job_db r.1 job none
          (some ((idx : Rat) / (total : Rat)))
          (some ("processed " ++ toString idx ++ "/" ++ toString total ++
            " (" ++ toString r.2.1 ++ " created)")) now
        auto_annotate_loop env classes aset_id total now rest (idx + 1)
          s1.1 s1.2 r.2.1 r.2.2

/-- The terminal message of a completed run (tasks.py:505-507). -/
def auto_done_message (created skipped : Nat) : String :=
  "done. created " ++ toString created ++ " annotations" ++
    (if skipped ≠ 0 then
      ", skipped " ++ toString skipped ++ " unmatched predictions"
    else "")

/-- `auto_annotate_task` from the dataset lookup onward (tasks.py:416-508),
given the store and job row as of the end of the device fallback. -/
def auto_annotate_rest (env : AutoEnv) (db : Db) (job : Job)
    (payload : AutoPayload) (now : Int) : Db :=
  match db.datasets.find? (fun d =>
        d.id == payload.dataset_id && d.project_id == job.project_id) with
    | none =>
      (update_job_db db job (some "failed") none
        (some "dataset not found") now).1
    | some _ =>
      match db.model_weights.find? (fun m =>
          m.id == payload.model_id && m.project_id == job.project_id) with
      | none =>
        (update_job_db db job (some "failed") none
          (some "model not found") now).1
      | some mw =>
        if mw.framework != "ultralytics" || !env.weights_exists then
          (update_job_db db job (some "failed") none
            (some "auto annotate supports only ultralytics .pt in this MVP")
            now).1
        else
          let items :=
            (db.dataset_items.filter
              (fun it => it.dataset_id == payload.dataset_id)).insertionSort
              (fun a b => a.id ≤ b.id)
          let total := items.length
          if total = 0 then
            (update_job_db db job (some "success") (some 1)
              (some "no items") now).1
          else
            let aset : AnnotationSet :=
              ⟨db.next_aset_id, job.project_id,
               "auto_run_" ++ env.run_tag, "auto", some mw.id⟩
            let db :=
              { db with annotation_sets := db.annotation_sets ++ [aset],
                        next_aset_id := db.next_aset_id + 1 }
            let classes := db.label_classes.filter
              (fun c => c.project_id == job.project_id)
            if classes.isEmpty then
              (update_job_db db job (some "failed") none
                (some ("no label classes defined in project. " ++
                  "please add classes first.")) now).1
            else
              -- wipe any existing rows of the fresh set (tasks.py:462)
              let wiped :=
                db.annotations.filter
                  (fun a => !(a.annotation_set_id == aset.id))
              let db := { db with annotations := wiped }
              let r := auto_annotate_loop env classes aset.id total now
                items 1 db job 0 0
              (update_job_db r.1 r.2.1 (some "success") (some 1)
                (some (auto_done_message r.2.2.1 r.2.2.2)) now).1

/-- `auto_annotate_task` (tasks.py:389-508), the body inside the failure
boundary: find the job, mark it running, apply the device fallback
(tasks.py:408-414), then continue with `auto_annotate_rest`. Returns the
final store. -/
def auto_annotate_task (env : AutoEnv) (db : Db) (job_id : Int)
    (payload : AutoPayload) (now : Int) : Db :=
  match db_find_job db job_id with
  | none => db
  | some job0 =>
    let s0 := update_job_db db job0 (some "running") (some 0)
      (some "starting") now
    let s1 :=
      if str_lower payload.device != "cpu" && !env.cuda_available then
        update_job_db s0.1 s0.2 none none
          (some "cuda not available, falling back to cpu") now
      else s0
    auto_annotate_rest env s1.1 s1.2 payload now

/-- Whether an endpoint call succeeded. -/
def rr_is_ok {α : Type} : RResult α → Bool
  | .ok _ _ => true
  | .err _ _ => false

/-- The committed database state carried by an endpoint result. -/
def rr_db {α : Type} : RResult α → Db
  | .ok d _ => d
  | .err d _ => d

/-- The HTTP status of a failed endpoint call. -/
def rr_err_status {α : Type} : RResult α → Option Nat
  | .ok _ _ => none
  | .err _ e => some e.status

/-- The (annotation_set_id, dataset_item_id) key of a lock row, the subject
of `UniqueConstraint("annotation_set_id", "dataset_item_id")`
(models.py:155). -/
def lock_pair (l : AnnotationLock) : Int × Int :=
  (l.annotation_set_id, l.dataset_item_id)

/-- The storage-level uniqueness constraint on lock rows: no two rows share
the (annotation_set_id, dataset_item_id) pair. -/
def locks_pair_unique (ls : List AnnotationLock) : Prop :=
  (ls.map lock_pair).Nodup

-- ------------------------------------------------------------------
-- Concrete worlds used by witnesses and counterexamples
-- ------------------------------------------------------------------

/-- A non-admin member of project 1. -/
def w_user : User := ⟨2, "annotator"⟩

/-- A global admin. -/
def w_admin : User := ⟨1, "admin"⟩

/-- Another non-admin member of project 1. -/
def w_other : User := ⟨3, "annotator"⟩

/-- Project 1 with dataset 1, item 7, annotation set 1; class 5 belongs to
project 1 and class 9 to project 2. -/
def w_db : Db :=
  { project_members := [⟨1, 2⟩, ⟨1, 3⟩]
    datasets := [⟨1, 1⟩]
    dataset_items := [⟨7, 1⟩]
    label_classes := [⟨5, 1, "car"⟩, ⟨9, 2, "cat"⟩]
    annotation_sets := [⟨1, 1, "default", "manual", none⟩]
    model_weights := []
    annotations := []
    annotation_locks := []
    audit_logs := []
    jobs := []
    next_lock_id := 100
    next_annotation_id := 200
    next_aset_id := 300 }

/-- `w_db` with a lock on (set 1, item 7) held by `w_user`, expiring at 50. -/
def w_db_locked : Db :=
  { w_db with annotation_locks := [⟨100, 1, 7, 2, 0, 50⟩] }

/-- `w_db` with one queued job. -/
def w_db_job : Db :=
  { w_db with jobs := [⟨1, 1, "auto_annotate", "running", 0, "", 0, 0⟩] }

/-- A valid incoming annotation referencing class 5 (project 1). -/
def w_in_valid : AnnotationIn :=
  ⟨none, 5, 1, 2, 3, 4, some 1, false, none⟩

/-- An incoming annotation referencing class 9, which exists but belongs to
project 2. -/
def w_in_foreign : AnnotationIn :=
  ⟨none, 9, 1, 2, 3, 4, some 1, false, none⟩

/-- An incoming annotation referencing the nonexistent class 999. -/
def w_in_invalid : AnnotationIn :=
  ⟨none, 999, 1, 2, 3, 4, some 1, false, none⟩

/-- A terminal job, used against the update primitive. -/
def c4_job : Job :=
  ⟨1, 1, "auto_annotate", "success", 1, "done", 0, 0⟩

/-- A task body that raises `boom` without touching the store. -/
def c5_body : Db → Job → BodyOutcome :=
  fun db _ => .raised db "boom"

/-- World for the auto-annotate run: project 1 has class `car` only, the
model's vocabulary is `dog` only — zero overlap, no mapping. -/
def c7_db : Db :=
  { project_members := []
    datasets := [⟨1, 1⟩]
    dataset_items := [⟨1, 1⟩]
    label_classes := [⟨5, 1, "car"⟩]
    annotation_sets := []
    model_weights := [⟨2, 1, "ultralytics", "m.pt"⟩]
    annotations := []
    annotation_locks := []
    audit_logs := []
    jobs := [⟨1, 1, "auto_annotate", "queued", 0, "", 0, 0⟩]
    next_lock_id := 1
    next_annotation_id := 1
    next_aset_id := 1 }

/-- The job row of the auto-annotate run. -/
def c7_job0 : Job := ⟨1, 1, "auto_annotate", "queued", 0, "", 0, 0⟩

/-- One prediction of model class 0 (`dog`). -/
def c7_pred : Pred := ⟨0, 1, 1, 1, 1, some 1⟩

/-- Collaborators for the run: weights and image exist, inference returns
the single `dog` prediction on every item. -/
def c7_env : AutoEnv :=
  { cuda_available := false
    weights_exists := true
    model_names := ["dog"]
    img_exists := fun _ => true
    predict := fun _ => .ok [c7_pred]
    run_tag := "t" }

/-- The payload of the auto-annotate job. -/
def c7_payload : AutoPayload := ⟨2, 1, "cpu"⟩

/-- The store after the zero-overlap auto-annotate run. -/
def c7_result : Db := auto_annotate_task c7_env c7_db 1 c7_payload 10

-- ------------------------------------------------------------------
-- Helper lemmas
-- ------------------------------------------------------------------

theorem update_job_id_eq (job : Job) (st : Option String) (pr : Option Rat)
    (ms : Option String) (now : Int) :
    (update_job job st pr ms now).id = job.id := by
  cases st <;> cases pr <;> cases ms <;> rfl

theorem update_job_project_id_eq (job : Job) (st : Option String)
    (pr : Option Rat) (ms : Option String) (now : Int) :
    (update_job job st pr ms now).project_id = job.project_id := by
  cases st <;> cases pr <;> cases ms <;> rfl

theorem update_job_status_none (job : Job) (pr : Option Rat)
    (ms : Option String) (now : Int) :
    (update_job job none pr ms now).status = job.status := by
  cases pr <;> cases ms <;> rfl

theorem update_job_status_some (job : Job) (s : String) (pr : Option Rat)
    (ms : Option String) (now : Int) :
    (update_job job (some s) pr ms now).status = s := by
  cases pr <;> cases ms <;> rfl

@[simp] theorem db_set_job_annotations (db : Db) (j : Job) :
    (db_set_job db j).annotations = db.annotations := rfl

@[simp] theorem db_set_job_datasets (db : Db) (j : Job) :
    (db_set_job db j).datasets = db.datasets := rfl

@[simp] theorem db_set_job_dataset_items (db : Db) (j : Job) :
    (db_set_job db j).dataset_items = db.dataset_items := rfl

@[simp] theorem db_set_job_label_classes (db : Db) (j : Job) :
    (db_set_job db j).label_classes = db.label_classes := rfl

@[simp] theorem db_set_job_annotation_sets (db : Db) (j : Job) :
    (db_set_job db j).annotation_sets = db.annotation_sets := rfl

@[simp] theorem db_set_job_model_weights (db : Db) (j : Job) :
    (db_set_job db j).model_weights = db.model_weights := rfl

@[simp] theorem db_set_job_annotation_locks (db : Db) (j : Job) :
    (db_set_job db j).annotation_locks = db.annotation_locks := rfl

@[simp] theorem db_set_job_next_aset_id (db : Db) (j : Job) :
    (db_set_job db j).next_aset_id = db.next_aset_id := rfl

@[simp] theorem db_set_job_next_annotation_id (db : Db) (j : Job) :
    (db_set_job db j).next_annotation_id = db.next_annotation_id := rfl

/-- Looking a job up by id after writing a row with that id finds the
written row. -/
theorem find?_set_by_id (ls : List Job) (job_id : Int) (j1 jn : Job)
    (h : ls.find? (fun j => j.id == job_id) = some j1) (hid : jn.id = j1.id) :
    (ls.map (fun k => if k.id == jn.id then jn else k)).find?
      (fun j => j.id == job_id) = some jn := by
  induction ls with
  | nil => simp at h
  | cons a tl ih =>
    simp only [List.find?_cons] at h
    simp only [List.map_cons, List.find?_cons]
    cases hb : a.id == job_id with
    | true =>
      simp only [hb] at h
      have haj : a = j1 := by
        injection h
      subst haj
      have hj : jn.id = a.id := by rw [hid]
      have h1 : (a.id == jn.id) = true := beq_iff_eq.mpr hj.symm
      have h2 : (jn.id == job_id) = true := by
        rw [beq_iff_eq] at hb ⊢
        rw [hj, hb]
      simp [h1, h2]
    | false =>
      simp only [hb] at h
      have hj1 : (j1.id == job_id) = true := by
        simpa using List.find?_some h
      have hane : a.id ≠ jn.id := by
        intro hc
        have hx : (a.id == job_id) = true := by
          rw [beq_iff_eq] at hj1 ⊢
          rw [hc, hid, hj1]
        rw [hx] at hb
        exact Bool.noConfusion hb
      have h1 : (a.id == jn.id) = false := beq_eq_false_iff_ne.mpr hane
      simp only [h1, if_false, Bool.false_eq_true, hb]
      exact ih h

/-- `db_set_job` version of `find?_set_by_id`. -/
theorem db_find_job_set (db : Db) (job_id : Int) (j1 jn : Job)
    (h : db_find_job db job_id = some j1) (hid : jn.id = j1.id) :
    db_find_job (db_set_job db jn) job_id = some jn :=
  find?_set_by_id db.jobs job_id j1 jn h hid

/-- The item returned by a successful access check carries the requested id. -/
theorem require_item_access_id (item_id : Int) (db : Db) (user : User)
    (it : DatasetItem) (h : require_item_access item_id db user = .ok it) :
    it.id = item_id := by
  unfold require_item_access at h
  cases hf : db.dataset_items.find? (fun x => x.id == item_id) with
  | none => simp only [hf] at h; exact Except.noConfusion h
  | some it0 =>
    simp only [hf] at h
    cases hd : db.datasets.find? (fun d => d.id == it0.dataset_id) with
    | none => simp only [hd] at h; exact Except.noConfusion h
    | some ds =>
      simp only [hd] at h
      cases hp : require_project_access ds.project_id db user with
      | error e => simp only [hp] at h; exact Except.noConfusion h
      | ok u =>
        simp only [hp] at h
        have h0 : it0 = it := by injection h
        subst h0
        simpa using List.find?_some hf

/-- A successful access check implies the item's dataset row exists. -/
theorem require_item_access_dataset (item_id : Int) (db : Db) (user : User)
    (it : DatasetItem) (h : require_item_access item_id db user = .ok it) :
    ∃ ds, db.datasets.find? (fun d => d.id == it.dataset_id) = some ds := by
  unfold require_item_access at h
  cases hf : db.dataset_items.find? (fun x => x.id == item_id) with
  | none => simp only [hf] at h; exact Except.noConfusion h
  | some it0 =>
    simp only [hf] at h
    cases hd : db.datasets.find? (fun d => d.id == it0.dataset_id) with
    | none => simp only [hd] at h; exact Except.noConfusion h
    | some ds =>
      simp only [hd] at h
      cases hp : require_project_access ds.project_id db user with
      | error e => simp only [hp] at h; exact Except.noConfusion h
      | ok u =>
        simp only [hp] at h
        have h0 : it0 = it := by injection h
        subst h0
        exact ⟨ds, hd⟩

/-- Reaping (a filter) preserves pair uniqueness of the lock table. -/
theorem locks_pair_unique_filter (ls : List AnnotationLock)
    (p : AnnotationLock → Bool) (h : locks_pair_unique ls) :
    locks_pair_unique (ls.filter p) :=
  h.sublist ((List.filter_sublist ls).map lock_pair)

/-- In-place renewal does not change any row's pair. -/
theorem renew_first_map_pair (ls : List AnnotationLock)
    (aset_id item_id now exp : Int) :
    (renew_first ls aset_id item_id now exp).map lock_pair =
      ls.map lock_pair := by
  induction ls with
  | nil => rfl
  | cons l rest ih =>
    by_cases hl :
        (l.annotation_set_id == aset_id && l.dataset_item_id == item_id) = true
    · simp [renew_first, hl, lock_pair]
    · simp [renew_first, hl, lock_pair, ih]

-- ------------------------------------------------------------------
-- Claims
-- ------------------------------------------------------------------

/-- Claim C4, counterexample: the claim that no `_update_job` invocation
can change a terminal status is false — starting from a job whose status is
`success`, an update passing `status="running"` changes the stored status. -/
theorem C4_counterexample :
    c4_job.status = "success" ∧
    (update_job c4_job (some "running") none none 5).status ≠
      c4_job.status := by
  exact ⟨rfl, by decide⟩

/-- Claim C4 (amended): once a Job's status is `success` or `failed`, an
`_update_job` invocation that passes no status argument (any combination of
progress/message) leaves the status unchanged; but the primitive has no
terminal guard — an invocation that passes a status value overwrites even a
terminal status. -/
theorem C4_update_job_terminal (job : Job) (pr : Option Rat)
    (ms : Option String) (now : Int)
    (hterm : job.status = "success" ∨ job.status = "failed") :
    (update_job job none pr ms now).status = job.status ∧
    ∀ s : String, (update_job job (some s) pr ms now).status = s := by
  exact ⟨update_job_status_none job pr ms now,
    fun s => update_job_status_some job s pr ms now⟩

/-- Witness for C4 at a concrete terminal job. -/
theorem C4_witness :
    (c4_job.status = "success" ∨ c4_job.status = "failed") ∧
    ((update_job c4_job none (some 0) (some "x") 5).status = c4_job.status ∧
     ∀ s : String, (update_job c4_job (some s) (some 0) (some "x") 5).status = s) :=
  ⟨Or.inl rfl,
   C4_update_job_terminal c4_job (some 0) (some "x") 5 (Or.inl rfl)⟩

/-- Claim C9: one tick of the per-job progress stream (a) on a missing job
pushes the placeholder `missing`/`job not found` state, keeps `last`
untouched and does not close the stream; (b) on an existing job pushes the
(status, progress, message) projection exactly when it differs from the last
projection sent; (c) closes the stream exactly when the observed status is
in the terminal set, which contains `success` and `failed`. -/
theorem C9_ws_tick_behavior (job_id : Int) (job : Job)
    (last : Option WsPayload) :
    ws_job_progress_tick job_id none last =
      ⟨some ⟨job_id, "missing", 0, "job not found"⟩, last, false⟩ ∧
    (ws_job_progress_tick job_id (some job) last).sent =
      (if some (job_payload_projection job) = last then none
       else some (job_payload_projection job)) ∧
    (ws_job_progress_tick job_id (some job) last).close =
      ws_terminal_statuses.contains job.status ∧
    (ws_job_progress_tick job_id
      (some { job with status := "success" }) last).close = true ∧
    (ws_job_progress_tick job_id
      (some { job with status := "failed" }) last).close = true := by
  refine ⟨rfl, ?_, ?_, ?_, ?_⟩
  · by_cases h : some (job_payload_projection job) = last <;>
      simp [ws_job_progress_tick, h]
  · by_cases h : some (job_payload_projection job) = last <;>
      simp [ws_job_progress_tick, h]
  · by_cases h : some (job_payload_projection { job with status := "success" }) = last <;>
      simp [ws_job_progress_tick, h, ws_terminal_statuses]
  · by_cases h : some (job_payload_projection { job with status := "failed" }) = last <;>
      simp [ws_job_progress_tick, h, ws_terminal_statuses]

/-- Claim C5: when the body of a job task raises after the job record was
found, the failure boundary marks the job `failed` with the exception's
description as the message and propagates nothing; when the
failure-reporting attempt itself raises, it is swallowed and nothing
propagates either. -/
theorem C5_failure_boundary (db : Db) (job_id : Int)
    (body : Db → Job → BodyOutcome) (now : Int) (job j1 : Job)
    (db1 : Db) (e : String)
    (hfind : db_find_job db job_id = some job)
    (hbody : body db job = .raised db1 e)
    (hfind1 : db_find_job db1 job_id = some j1) :
    (db_find_job (task_failure_boundary db job_id body false now).1 job_id =
      some (update_job j1 (some "failed") none (some e) now)) ∧
    (update_job j1 (some "failed") none (some e) now).status = "failed" ∧
    (update_job j1 (some "failed") none (some e) now).message = e ∧
    (task_failure_boundary db job_id body false now).2 = none ∧
    (task_failure_boundary db job_id body true now).2 = none := by
  have hrun : task_failure_boundary db job_id body false now =
      ((update_job_db db1 j1 (some "failed") none (some e) now).1, none) := by
    simp [task_failure_boundary, hfind, hbody, hfind1]
  have hrun' : task_failure_boundary db job_id body true now =
      (db1, none) := by
    simp [task_failure_boundary, hfind, hbody]
  refine ⟨?_, rfl, rfl, ?_, ?_⟩
  · rw [hrun]
    exact db_find_job_set db1 job_id j1 _ hfind1
      (update_job_id_eq j1 (some "failed") none (some e) now)
  · rw [hrun]
  · rw [hrun']

/-- Witness for C5: a body that raises `boom` on a store holding job 1. -/
theorem C5_witness :
    db_find_job w_db_job 1 = some ⟨1, 1, "auto_annotate", "running", 0, "", 0, 0⟩ ∧
    c5_body w_db_job ⟨1, 1, "auto_annotate", "running", 0, "", 0, 0⟩ =
      .raised w_db_job "boom" ∧
    ((db_find_job (task_failure_boundary w_db_job 1 c5_body false 9).1 1 =
      some (update_job ⟨1, 1, "auto_annotate", "running", 0, "", 0, 0⟩
        (some "failed") none (some "boom") 9)) ∧
     (update_job ⟨1, 1, "auto_annotate", "running", 0, "", 0, 0⟩
       (some "failed") none (some "boom") 9).status = "failed" ∧
     (update_job ⟨1, 1, "auto_annotate", "running", 0, "", 0, 0⟩
       (some "failed") none (some "boom") 9).message = "boom" ∧
     (task_failure_boundary w_db_job 1 c5_body false 9).2 = none ∧
     (task_failure_boundary w_db_job 1 c5_body true 9).2 = none) :=
  ⟨by decide, rfl,
   C5_failure_boundary w_db_job 1 c5_body 9
     ⟨1, 1, "auto_annotate", "running", 0, "", 0, 0⟩
     ⟨1, 1, "auto_annotate", "running", 0, "", 0, 0⟩
     w_db_job "boom" (by decide) rfl (by decide)⟩

/-- Claim C10: with item access held and a positive annotation_set_id,
`release_lock` always succeeds with `{ok: true}` and deletes exactly the
lock rows of that pair owned by the requesting user; every lock row owned by
someone else — in particular another user's lock on the very pair being
released — survives unchanged. -/
theorem C10_release_deletes_only_own (db : Db) (item_id : Int)
    (payload_aset q_aset : Option Int) (user : User) (it : DatasetItem)
    (hacc : require_item_access item_id db user = .ok it)
    (hapos : ¬ (pick_aset_id payload_aset q_aset ≤ 0)) :
    release_lock db item_id payload_aset q_aset user =
      .ok { db with annotation_locks := db.annotation_locks.filter (fun l =>
              !(l.annotation_set_id == pick_aset_id payload_aset q_aset &&
                l.dataset_item_id == item_id &&
                l.locked_by_user_id == user.id)) } ⟨true⟩ ∧
    ∀ l ∈ db.annotation_locks, l.locked_by_user_id ≠ user.id →
      l ∈ (rr_db (release_lock db item_id payload_aset q_aset user)).annotation_locks := by
  have heq : release_lock db item_id payload_aset q_aset user =
      .ok { db with annotation_locks := db.annotation_locks.filter (fun l =>
              !(l.annotation_set_id == pick_aset_id payload_aset q_aset &&
                l.dataset_item_id == item_id &&
                l.locked_by_user_id == user.id)) } ⟨true⟩ := by
    simp only [release_lock, hacc, hapos, if_false]
  refine ⟨heq, ?_⟩
  intro l hl hne
  rw [heq]
  have hb : (l.locked_by_user_id == user.id) = false :=
    beq_eq_false_iff_ne.mpr hne
  simp [rr_db, List.mem_filter, hl, hb]

/-- Witness for C10: user 3 releases the pair (set 1, item 7) locked by
user 2; the call succeeds and the lock table is untouched. -/
theorem C10_witness :
    require_item_access 7 w_db_locked w_other = .ok ⟨7, 1⟩ ∧
    ¬ (pick_aset_id (some 1) none ≤ 0) ∧
    (release_lock w_db_locked 7 (some 1) none w_other =
      .ok { w_db_locked with annotation_locks :=
              w_db_locked.annotation_locks.filter (fun l =>
                !(l.annotation_set_id == pick_aset_id (some 1) none &&
                  l.dataset_item_id == 7 &&
                  l.locked_by_user_id == w_other.id)) } ⟨true⟩ ∧
     ∀ l ∈ w_db_locked.annotation_locks, l.locked_by_user_id ≠ w_other.id →
       l ∈ (rr_db (release_lock w_db_locked 7 (some 1) none w_other)).annotation_locks) ∧
    (rr_db (release_lock w_db_locked 7 (some 1) none w_other)).annotation_locks =
      w_db_locked.annotation_locks :=
  ⟨rfl, by decide,
   C10_release_deletes_only_own w_db_locked 7 (some 1) none w_other ⟨7, 1⟩
     rfl (by decide),
   by decide⟩

/-- In a duplicate-free list a present key is counted exactly once. -/
theorem countP_key_of_nodup (l : List (Int × Int)) (key : Int × Int)
    (hn : l.Nodup) (hm : key ∈ l) :
    l.countP (fun pr => decide (pr = key)) = 1 := by
  induction l with
  | nil => simp at hm
  | cons x xs ih =>
    rw [List.countP_cons]
    rcases List.mem_cons.mp hm with h | h
    · subst h
      have hx : xs.countP (fun pr => decide (pr = key)) = 0 := by
        rw [List.countP_eq_zero]
        intro a ha
        have hne : a ≠ key := fun hc => (List.nodup_cons.mp hn).1 (hc ▸ ha)
        simp [hne]
      simp [hx]
    · have hn' := (List.nodup_cons.mp hn).2
      have hxk : x ≠ key := fun hc => (List.nodup_cons.mp hn).1 (hc ▸ h)
      rw [ih hn' h]
      simp [hxk]

/-- An absent key is counted zero times. -/
theorem countP_key_of_not_mem (l : List (Int × Int)) (key : Int × Int)
    (hm : key ∉ l) :
    l.countP (fun pr => decide (pr = key)) = 0 := by
  rw [List.countP_eq_zero]
  intro a ha
  have hne : a ≠ key := fun hc => hm (hc ▸ ha)
  simp [hne]

/-- Claim C1: lock acquisition has upsert semantics — when the storage
uniqueness constraint on (annotation_set_id, dataset_item_id) holds before
the call, it holds after the call whatever its outcome (the call never
inserts a second row for a pair), and after a successful call exactly one
lock row exists for the requested pair. -/
theorem C1_acquire_lock_upsert (db : Db) (item_id : Int)
    (payload_aset payload_ttl q_aset : Option Int) (user : User) (now : Int)
    (h : locks_pair_unique db.annotation_locks) :
    locks_pair_unique
      (rr_db (acquire_lock db item_id payload_aset payload_ttl q_aset user now)).annotation_locks ∧
    ∀ db' r,
      acquire_lock db item_id payload_aset payload_ttl q_aset user now = .ok db' r →
      (db'.annotation_locks.map lock_pair).countP
        (fun pr => decide (pr = (pick_aset_id payload_aset q_aset, item_id))) = 1 := by
  cases hacc : require_item_access item_id db user with
  | error e =>
    constructor
    · simp only [acquire_lock, hacc, rr_db]
      exact h
    · intro db' r hok
      simp only [acquire_lock, hacc] at hok
      exact RResult.noConfusion hok
  | ok it =>
    have hit : it.id = item_id := require_item_access_id _ _ _ _ hacc
    subst hit
    by_cases ha : pick_aset_id payload_aset q_aset ≤ 0
    · constructor
      · simp only [acquire_lock, hacc, if_pos ha, rr_db]
        exact h
      · intro db' r hok
        simp only [acquire_lock, hacc, if_pos ha] at hok
        exact RResult.noConfusion hok
    · have hu1 : locks_pair_unique
          (db.annotation_locks.filter (fun l => !(decide (l.expires_at < now)))) :=
        locks_pair_unique_filter _ _ h
      cases hfind : (db.annotation_locks.filter
            (fun l => !(decide (l.expires_at < now)))).find?
          (fun l => l.annotation_set_id == pick_aset_id payload_aset q_aset &&
                    l.dataset_item_id == it.id) with
      | some lock =>
        have hkey : lock_pair lock =
            (pick_aset_id payload_aset q_aset, it.id) := by
          have hp := List.find?_some hfind
          simp only [Bool.and_eq_true, beq_iff_eq] at hp
          simp [lock_pair, hp.1, hp.2]
        have hmem : lock ∈ db.annotation_locks.filter
            (fun l => !(decide (l.expires_at < now))) :=
          List.mem_of_find?_eq_some hfind
        cases hown : lock.locked_by_user_id != user.id with
        | true =>
          constructor
          · simp only [acquire_lock, hacc, if_neg ha, hfind, hown, if_true,
              rr_db]
            exact hu1
          · intro db' r hok
            simp only [acquire_lock, hacc, if_neg ha, hfind, hown,
              if_true] at hok
            exact RResult.noConfusion hok
        | false =>
          have hcount :
              ((renew_first
                  (db.annotation_locks.filter
                    (fun l => !(decide (l.expires_at < now))))
                  (pick_aset_id payload_aset q_aset) it.id now
                  (now + pick_ttl_seconds payload_ttl)).map lock_pair).countP
                (fun pr =>
                  decide (pr = (pick_aset_id payload_aset q_aset, it.id))) = 1 := by
            rw [renew_first_map_pair]
            have hmemmap : (pick_aset_id payload_aset q_aset, it.id) ∈
                (db.annotation_locks.filter
                  (fun l => !(decide (l.expires_at < now)))).map lock_pair := by
              rw [← hkey]
              exact List.mem_map_of_mem lock_pair hmem
            exact countP_key_of_nodup _ _ hu1 hmemmap
          constructor
          · simp only [acquire_lock, hacc, if_neg ha, hfind, hown,
              Bool.false_eq_true, if_false, rr_db, locks_pair_unique]
            rw [renew_first_map_pair]
            exact hu1
          · intro db' r hok
            simp only [acquire_lock, hacc, if_neg ha, hfind, hown,
              Bool.false_eq_true, if_false] at hok
            have hdb := (RResult.ok.inj hok).1
            rw [← hdb]
            exact hcount
      | none =>
        have hnot := List.find?_eq_none.mp hfind
        have hnotmem : (pick_aset_id payload_aset q_aset, it.id) ∉
            (db.annotation_locks.filter
              (fun l => !(decide (l.expires_at < now)))).map lock_pair := by
          intro hmem
          obtain ⟨l, hl, hpl⟩ := List.mem_map.mp hmem
          refine hnot l hl ?_
          have h1 : l.annotation_set_id = pick_aset_id payload_aset q_aset := by
            have := congrArg Prod.fst hpl
            simpa [lock_pair] using this
          have h2 : l.dataset_item_id = it.id := by
            have := congrArg Prod.snd hpl
            simpa [lock_pair] using this
          simp [h1, h2]
        constructor
        · simp only [acquire_lock, hacc, if_neg ha, hfind, rr_db,
            locks_pair_unique, List.map_append]
          have hperm := List.perm_append_singleton
            (lock_pair ⟨db.next_lock_id, pick_aset_id payload_aset q_aset,
              it.id, user.id, now, now + pick_ttl_seconds payload_ttl⟩)
            ((db.annotation_locks.filter
              (fun l => !(decide (l.expires_at < now)))).map lock_pair)
          simp only [List.map_cons, List.map_nil] at hperm ⊢
          rw [hperm.nodup_iff, List.nodup_cons]
          exact ⟨hnotmem, hu1⟩
        · intro db' r hok
          simp only [acquire_lock, hacc, if_neg ha, hfind] at hok
          have hdb := (RResult.ok.inj hok).1
          rw [← hdb]
          simp only [List.map_append, List.map_cons, List.map_nil,
            List.countP_append]
          rw [countP_key_of_not_mem _ _ hnotmem]
          simp [lock_pair]

/-- Witness for C1: acquiring (set 1, item 7) on a lock table that is empty
(trivially pair-unique) yields a table with exactly one row for the pair. -/
theorem C1_witness :
    locks_pair_unique w_db.annotation_locks ∧
    (locks_pair_unique
      (rr_db (acquire_lock w_db 7 (some 1) (some 60) none w_user 40)).annotation_locks ∧
     ∀ db' r,
       acquire_lock w_db 7 (some 1) (some 60) none w_user 40 = .ok db' r →
       (db'.annotation_locks.map lock_pair).countP
         (fun pr => decide (pr = ((1 : Int), (7 : Int)))) = 1) :=
  ⟨by simp [locks_pair_unique, w_db],
   C1_acquire_lock_upsert w_db 7 (some 1) (some 60) none w_user 40
     (by simp [locks_pair_unique, w_db])⟩

/-- The row renewed in place stays in the table, with the new timestamps. -/
theorem renew_first_mem (ls : List AnnotationLock)
    (aset_id item_id now exp : Int) (lock : AnnotationLock)
    (h : ls.find? (fun l => l.annotation_set_id == aset_id &&
          l.dataset_item_id == item_id) = some lock) :
    ({ lock with expires_at := exp, locked_at := now } : AnnotationLock) ∈
      renew_first ls aset_id item_id now exp := by
  induction ls with
  | nil => simp at h
  | cons l rest ih =>
    simp only [List.find?_cons] at h
    cases hb : (l.annotation_set_id == aset_id &&
        l.dataset_item_id == item_id) with
    | true =>
      simp only [hb] at h
      have hl : l = lock := by injection h
      subst hl
      simp [renew_first, hb]
    | false =>
      simp only [hb] at h
      simp only [renew_first, hb, Bool.false_eq_true, if_false]
      exact List.mem_cons_of_mem _ (ih h)

/-- Under pair uniqueness, any row of the pair equals the row `.first()`
returns for that pair. -/
theorem find?_unique_pair (ls : List AnnotationLock) (aset_id item_id : Int)
    (hu : locks_pair_unique ls) (lock l : AnnotationLock)
    (hfind : ls.find? (fun x => x.annotation_set_id == aset_id &&
          x.dataset_item_id == item_id) = some lock)
    (hl : l ∈ ls)
    (h1 : l.annotation_set_id = aset_id) (h2 : l.dataset_item_id = item_id) :
    l = lock := by
  have hmem := List.mem_of_find?_eq_some hfind
  have hp := List.find?_some hfind
  simp only [Bool.and_eq_true, beq_iff_eq] at hp
  apply List.inj_on_of_nodup_map hu hl hmem
  simp [lock_pair, h1, h2, hp.1, hp.2]

/-- Claim C3: with item access held, a positive annotation_set_id and a
pair-unique lock table, acquisition (a) raises iff a non-expired lock on the
pair is owned by a different principal, (b) every raise is a 409, (c) the
owner of a live pair lock always reacquires successfully and the pair's
expiry is reset to now + clamped ttl, and (d) once every lock on the pair
has expired (reaped by the call), any requester succeeds. -/
theorem C3_acquire_conflict_iff (db : Db) (item_id : Int)
    (payload_aset payload_ttl q_aset : Option Int) (user : User) (now : Int)
    (it : DatasetItem)
    (hacc : require_item_access item_id db user = .ok it)
    (ha : ¬ (pick_aset_id payload_aset q_aset ≤ 0))
    (huniq : locks_pair_unique db.annotation_locks) :
    ((∃ db' e, acquire_lock db item_id payload_aset payload_ttl q_aset user now =
        .err db' e) ↔
      ∃ l ∈ db.annotation_locks,
        l.annotation_set_id = pick_aset_id payload_aset q_aset ∧
        l.dataset_item_id = item_id ∧
        ¬ (l.expires_at < now) ∧
        l.locked_by_user_id ≠ user.id) ∧
    (∀ db' e, acquire_lock db item_id payload_aset payload_ttl q_aset user now =
        .err db' e → e.status = 409) ∧
    (∀ l ∈ db.annotation_locks,
      l.annotation_set_id = pick_aset_id payload_aset q_aset →
      l.dataset_item_id = item_id →
      l.locked_by_user_id = user.id →
      ¬ (l.expires_at < now) →
      ∃ db' r, acquire_lock db item_id payload_aset payload_ttl q_aset user now =
          .ok db' r ∧
        r.expires_at = now + pick_ttl_seconds payload_ttl ∧
        ∃ l' ∈ db'.annotation_locks,
          l'.annotation_set_id = pick_aset_id payload_aset q_aset ∧
          l'.dataset_item_id = item_id ∧
          l'.locked_by_user_id = user.id ∧
          l'.expires_at = now + pick_ttl_seconds payload_ttl) ∧
    ((∀ l ∈ db.annotation_locks,
        l.annotation_set_id = pick_aset_id payload_aset q_aset →
        l.dataset_item_id = item_id →
        l.expires_at < now) →
      ∃ db' r, acquire_lock db item_id payload_aset payload_ttl q_aset user now =
          .ok db' r) := by
  have hit : it.id = item_id := require_item_access_id _ _ _ _ hacc
  subst hit
  have hu1 : locks_pair_unique
      (db.annotation_locks.filter (fun l => !(decide (l.expires_at < now)))) :=
    locks_pair_unique_filter _ _ huniq
  cases hfind : (db.annotation_locks.filter
        (fun l => !(decide (l.expires_at < now)))).find?
      (fun l => l.annotation_set_id == pick_aset_id payload_aset q_aset &&
                l.dataset_item_id == it.id) with
  | some lock =>
    have hlockmem : lock ∈ db.annotation_locks.filter
        (fun l => !(decide (l.expires_at < now))) :=
      List.mem_of_find?_eq_some hfind
    have hlockdb : lock ∈ db.annotation_locks :=
      (List.mem_filter.mp hlockmem).1
    have hlive : ¬ (lock.expires_at < now) := by
      have := (List.mem_filter.mp hlockmem).2
      simpa using this
    have hp := List.find?_some hfind
    simp only [Bool.and_eq_true, beq_iff_eq] at hp
    cases hown : lock.locked_by_user_id != user.id with
    | true =>
      have heq : acquire_lock db it.id payload_aset payload_ttl q_aset user now =
          .err { db with
                 annotation_locks :=
                   db.annotation_locks.filter
                     (fun l => !(decide (l.expires_at < now))) }
               ⟨409, "locked by another user"⟩ := by
        simp only [acquire_lock, hacc, if_neg ha, hfind, hown, if_true]
      have hne : lock.locked_by_user_id ≠ user.id := by
        simpa using hown
      refine ⟨⟨fun _ => ⟨lock, hlockdb, hp.1, hp.2, hlive, hne⟩,
          fun _ => ⟨_, _, heq⟩⟩, ?_, ?_, ?_⟩
      · intro db' e hok
        rw [heq] at hok
        have hstat := (RResult.err.inj hok).2
        rw [← hstat]
      · intro l hl h1 h2 hou hexp
        have hlf : l ∈ db.annotation_locks.filter
            (fun l => !(decide (l.expires_at < now))) :=
          List.mem_filter.mpr ⟨hl, by simpa using hexp⟩
        have : l = lock :=
          find?_unique_pair _ _ _ hu1 lock l hfind hlf h1 h2
        subst this
        exact absurd hou hne
      · intro hall
        exact absurd (hall lock hlockdb hp.1 hp.2) hlive
    | false =>
      have hsame : lock.locked_by_user_id = user.id := by
        have : (lock.locked_by_user_id == user.id) = true := by
          simpa using hown
        exact beq_iff_eq.mp this
      have heq : acquire_lock db it.id payload_aset payload_ttl q_aset user now =
          .ok { db with
                annotation_locks :=
                  renew_first
                    (db.annotation_locks.filter
                      (fun l => !(decide (l.expires_at < now))))
                    (pick_aset_id payload_aset q_aset) it.id now
                    (now + pick_ttl_seconds payload_ttl) }
             ⟨true, now + pick_ttl_seconds payload_ttl⟩ := by
        simp only [acquire_lock, hacc, if_neg ha, hfind, hown,
          Bool.false_eq_true, if_false]
      refine ⟨⟨?_, ?_⟩, ?_, ?_, ?_⟩
      · rintro ⟨db', e, hok⟩
        rw [heq] at hok
        exact RResult.noConfusion hok
      · rintro ⟨l, hl, h1, h2, hexp, hne⟩
        have hlf : l ∈ db.annotation_locks.filter
            (fun l => !(decide (l.expires_at < now))) :=
          List.mem_filter.mpr ⟨hl, by simpa using hexp⟩
        have : l = lock :=
          find?_unique_pair _ _ _ hu1 lock l hfind hlf h1 h2
        subst this
        exact absurd hsame hne
      · intro db' e hok
        rw [heq] at hok
        exact RResult.noConfusion hok
      · intro l hl h1 h2 hou hexp
        refine ⟨_, _, heq, rfl, ?_⟩
        refine ⟨{ lock with
          expires_at := now + pick_ttl_seconds payload_ttl,
          locked_at := now }, renew_first_mem _ _ _ _ _ _ hfind, ?_, ?_, ?_, rfl⟩
        · exact hp.1
        · exact hp.2
        · exact hsame
      · intro hall
        exact ⟨_, _, heq⟩
  | none =>
    have hnot := List.find?_eq_none.mp hfind
    have heq : acquire_lock db it.id payload_aset payload_ttl q_aset user now =
        .ok { db with
              annotation_locks :=
                (db.annotation_locks.filter
                  (fun l => !(decide (l.expires_at < now)))) ++
                [⟨db.next_lock_id, pick_aset_id payload_aset q_aset, it.id,
                  user.id, now, now + pick_ttl_seconds payload_ttl⟩],
              next_lock_id := db.next_lock_id + 1 }
           ⟨true, now + pick_ttl_seconds payload_ttl⟩ := by
      simp only [acquire_lock, hacc, if_neg ha, hfind]
    refine ⟨⟨?_, ?_⟩, ?_, ?_, ?_⟩
    · rintro ⟨db', e, hok⟩
      rw [heq] at hok
      exact RResult.noConfusion hok
    · rintro ⟨l, hl, h1, h2, hexp, hne⟩
      have hlf : l ∈ db.annotation_locks.filter
          (fun l => !(decide (l.expires_at < now))) :=
        List.mem_filter.mpr ⟨hl, by simpa using hexp⟩
      refine absurd (hnot l hlf) ?_
      simp [h1, h2]
    · intro db' e hok
      rw [heq] at hok
      exact RResult.noConfusion hok
    · intro l hl h1 h2 hou hexp
      refine ⟨_, _, heq, rfl, ?_⟩
      refine ⟨⟨db.next_lock_id, pick_aset_id payload_aset q_aset, it.id,
        user.id, now, now + pick_ttl_seconds payload_ttl⟩,
        List.mem_append_right _ (List.mem_singleton.mpr rfl), rfl, rfl, rfl, rfl⟩
    · intro hall
      exact ⟨_, _, heq⟩

/-- Witness for C3: acquisition on a table holding only the pair's lock,
owned by the requester and still live at time 10. -/
theorem C3_witness :
    require_item_access 7 w_db_locked w_user = .ok ⟨7, 1⟩ ∧
    ¬ (pick_aset_id (some 1) none ≤ 0) ∧
    locks_pair_unique w_db_locked.annotation_locks ∧
    (((∃ db' e, acquire_lock w_db_locked 7 (some 1) (some 120) none w_user 10 =
        .err db' e) ↔
      ∃ l ∈ w_db_locked.annotation_locks,
        l.annotation_set_id = pick_aset_id (some 1) none ∧
        l.dataset_item_id = 7 ∧
        ¬ (l.expires_at < 10) ∧
        l.locked_by_user_id ≠ w_user.id) ∧
    (∀ db' e, acquire_lock w_db_locked 7 (some 1) (some 120) none w_user 10 =
        .err db' e → e.status = 409) ∧
    (∀ l ∈ w_db_locked.annotation_locks,
      l.annotation_set_id = pick_aset_id (some 1) none →
      l.dataset_item_id = 7 →
      l.locked_by_user_id = w_user.id →
      ¬ (l.expires_at < 10) →
      ∃ db' r, acquire_lock w_db_locked 7 (some 1) (some 120) none w_user 10 =
          .ok db' r ∧
        r.expires_at = 10 + pick_ttl_seconds (some 120) ∧
        ∃ l' ∈ db'.annotation_locks,
          l'.annotation_set_id = pick_aset_id (some 1) none ∧
          l'.dataset_item_id = 7 ∧
          l'.locked_by_user_id = w_user.id ∧
          l'.expires_at = 10 + pick_ttl_seconds (some 120)) ∧
    ((∀ l ∈ w_db_locked.annotation_locks,
        l.annotation_set_id = pick_aset_id (some 1) none →
        l.dataset_item_id = 7 →
        l.expires_at < 10) →
      ∃ db' r, acquire_lock w_db_locked 7 (some 1) (some 120) none w_user 10 =
          .ok db' r)) :=
  ⟨rfl, by decide, by simp [locks_pair_unique, w_db_locked, w_db, lock_pair],
   C3_acquire_conflict_iff w_db_locked 7 (some 1) (some 120) none w_user 10
     ⟨7, 1⟩ rfl (by decide)
     (by simp [locks_pair_unique, w_db_locked, w_db, lock_pair])⟩

/-- When every incoming class id resolves, the insert loop succeeds, and it
only touches the annotation table and its id counter. -/
theorem insert_loop_ok (db : Db) (item_id aset_id : Int)
    (payload : List AnnotationIn) (now : Int)
    (hval : ∀ a ∈ payload,
      (db.label_classes.find? (fun c => c.id == a.class_id)).isSome) :
    ∃ w2, insert_annotations_loop db item_id aset_id payload now = .ok w2 ∧
      w2.datasets = db.datasets ∧ w2.label_classes = db.label_classes := by
  induction payload generalizing db with
  | nil => exact ⟨db, rfl, rfl, rfl⟩
  | cons a rest ih =>
    cases hc : db.label_classes.find? (fun c => c.id == a.class_id) with
    | none =>
      exfalso
      have hv := hval a (List.mem_cons_self a rest)
      rw [hc] at hv
      simp at hv
    | some c =>
      simp only [insert_annotations_loop, hc]
      exact ih _ (fun x hx => hval x (List.mem_cons_of_mem a hx))

/-- When some incoming class id resolves to no row at all, the insert loop
raises a 400. -/
theorem insert_loop_invalid (db : Db) (item_id aset_id : Int)
    (payload : List AnnotationIn) (now : Int)
    (hbad : ∃ a ∈ payload,
      db.label_classes.find? (fun c => c.id == a.class_id) = none) :
    ∃ e, insert_annotations_loop db item_id aset_id payload now = .error e ∧
      e.status = 400 := by
  induction payload generalizing db with
  | nil => simp at hbad
  | cons a rest ih =>
    cases hc : db.label_classes.find? (fun c => c.id == a.class_id) with
    | none =>
      refine ⟨⟨400, "class_id " ++ toString a.class_id ++ " invalid"⟩, ?_, rfl⟩
      simp only [insert_annotations_loop, hc]
    | some c =>
      simp only [insert_annotations_loop, hc]
      apply ih
      obtain ⟨b, hb, hfb⟩ := hbad
      rcases List.mem_cons.mp hb with hba | hbr
      · rw [hba] at hfb
        rw [hfb] at hc
        exact Option.noConfusion hc
      · exact ⟨b, hbr, hfb⟩

/-- The code's lock-guard condition matches its specification reading. -/
theorem replace_lock_guard_iff (db : Db) (item_id annotation_set_id : Int)
    (user : User) (now : Int) :
    (db.annotation_locks.find? (fun l =>
        l.annotation_set_id == annotation_set_id &&
        l.dataset_item_id == item_id &&
        l.locked_by_user_id == user.id &&
        decide (now ≤ l.expires_at))).isSome = true ↔
      ∃ l ∈ db.annotation_locks,
        l.annotation_set_id = annotation_set_id ∧
        l.dataset_item_id = item_id ∧
        l.locked_by_user_id = user.id ∧ now ≤ l.expires_at := by
  rw [List.find?_isSome]
  constructor
  · rintro ⟨x, hx, hp⟩
    simp only [Bool.and_eq_true, beq_iff_eq, decide_eq_true_eq] at hp
    exact ⟨x, hx, hp.1.1.1, hp.1.1.2, hp.1.2, hp.2⟩
  · rintro ⟨x, hx, h1, h2, h3, h4⟩
    exact ⟨x, hx, by simp [h1, h2, h3, h4]⟩

/-- Lock guard failure: a non-admin with no live lock on the pair gets the
409 and the database is untouched. -/
theorem replace_err409_of_nolock (db : Db) (item_id : Int)
    (payload : List AnnotationIn) (annotation_set_id : Int) (user : User)
    (now : Int) (item : DatasetItem) (st : AnnotationSet)
    (hacc : require_item_access item_id db user = .ok item)
    (hset : db.annotation_sets.find?
      (fun s => s.id == annotation_set_id) = some st)
    (hrole : user.role ≠ "admin")
    (hnolock : ¬ (∃ l ∈ db.annotation_locks,
        l.annotation_set_id = annotation_set_id ∧
        l.dataset_item_id = item_id ∧
        l.locked_by_user_id = user.id ∧ now ≤ l.expires_at)) :
    replace_annotations db item_id payload annotation_set_id user now =
      .err db ⟨409, "no active lock (open image again to acquire lock)"⟩ := by
  have hr : (user.role == "admin") = false := beq_eq_false_iff_ne.mpr hrole
  have hiss : (db.annotation_locks.find? (fun l =>
      l.annotation_set_id == annotation_set_id &&
      l.dataset_item_id == item_id &&
      l.locked_by_user_id == user.id &&
      decide (now ≤ l.expires_at))).isSome = false := by
    apply Bool.eq_false_iff.mpr
    intro hs
    exact hnolock ((replace_lock_guard_iff db item_id annotation_set_id
      user now).mp hs)
  simp only [replace_annotations, hacc, hset, hr, Bool.false_eq_true,
    if_false, hiss, Bool.not_false, if_true]

/-- Lock guard passing plus all class references resolving gives success. -/
theorem replace_ok_of_valid (db : Db) (item_id : Int)
    (payload : List AnnotationIn) (annotation_set_id : Int) (user : User)
    (now : Int) (item : DatasetItem) (st : AnnotationSet)
    (hacc : require_item_access item_id db user = .ok item)
    (hset : db.annotation_sets.find?
      (fun s => s.id == annotation_set_id) = some st)
    (hlock : user.role = "admin" ∨
      ∃ l ∈ db.annotation_locks,
        l.annotation_set_id = annotation_set_id ∧
        l.dataset_item_id = item_id ∧
        l.locked_by_user_id = user.id ∧ now ≤ l.expires_at)
    (hval : ∀ a ∈ payload,
      (db.label_classes.find? (fun c => c.id == a.class_id)).isSome) :
    ∃ db' out,
      replace_annotations db item_id payload annotation_set_id user now =
        .ok db' out := by
  obtain ⟨ds, hds⟩ := require_item_access_dataset _ _ _ _ hacc
  obtain ⟨w2, hw, hd, hl⟩ := insert_loop_ok
    { db with annotations := db.annotations.filter (fun a =>
        !(a.dataset_item_id == item_id &&
          a.annotation_set_id == annotation_set_id)) }
    item_id annotation_set_id payload now hval
  have hfindw : w2.datasets.find? (fun d => d.id == item.dataset_id) =
      some ds := by
    rw [hd]
    exact hds
  by_cases hrole : user.role = "admin"
  · have hr : (user.role == "admin") = true := beq_iff_eq.mpr hrole
    simp only [replace_annotations, hacc, hset, hr, if_true,
      Bool.not_true, Bool.false_eq_true, if_false, hw, hfindw]
    exact ⟨_, _, rfl⟩
  · have hr : (user.role == "admin") = false := beq_eq_false_iff_ne.mpr hrole
    have hlock' : ∃ l ∈ db.annotation_locks,
        l.annotation_set_id = annotation_set_id ∧
        l.dataset_item_id = item_id ∧
        l.locked_by_user_id = user.id ∧ now ≤ l.expires_at := by
      rcases hlock with hadm | hl'
      · exact absurd hadm hrole
      · exact hl'
    have hiss : (db.annotation_locks.find? (fun l =>
        l.annotation_set_id == annotation_set_id &&
        l.dataset_item_id == item_id &&
        l.locked_by_user_id == user.id &&
        decide (now ≤ l.expires_at))).isSome = true :=
      (replace_lock_guard_iff db item_id annotation_set_id user now).mpr hlock'
    simp only [replace_annotations, hacc, hset, hr, Bool.false_eq_true,
      if_false, hiss, Bool.not_true, hw, hfindw]
    exact ⟨_, _, rfl⟩

/-- Lock guard passing plus one dangling class reference gives a 400 with
the committed state exactly the original database. -/
theorem replace_err400_of_invalid (db : Db) (item_id : Int)
    (payload : List AnnotationIn) (annotation_set_id : Int) (user : User)
    (now : Int) (item : DatasetItem) (st : AnnotationSet)
    (hacc : require_item_access item_id db user = .ok item)
    (hset : db.annotation_sets.find?
      (fun s => s.id == annotation_set_id) = some st)
    (hlock : user.role = "admin" ∨
      ∃ l ∈ db.annotation_locks,
        l.annotation_set_id = annotation_set_id ∧
        l.dataset_item_id = item_id ∧
        l.locked_by_user_id = user.id ∧ now ≤ l.expires_at)
    (hbad : ∃ a ∈ payload,
      db.label_classes.find? (fun c => c.id == a.class_id) = none) :
    ∃ e, replace_annotations db item_id payload annotation_set_id user now =
        .err db e ∧ e.status = 400 := by
  obtain ⟨e, he, hs⟩ := insert_loop_invalid
    { db with annotations := db.annotations.filter (fun a =>
        !(a.dataset_item_id == item_id &&
          a.annotation_set_id == annotation_set_id)) }
    item_id annotation_set_id payload now hbad
  by_cases hrole : user.role = "admin"
  · have hr : (user.role == "admin") = true := beq_iff_eq.mpr hrole
    refine ⟨e, ?_, hs⟩
    simp only [replace_annotations, hacc, hset, hr, if_true, Bool.not_true,
      Bool.false_eq_true, if_false, he]
  · have hlock' : ∃ l ∈ db.annotation_locks,
        l.annotation_set_id = annotation_set_id ∧
        l.dataset_item_id = item_id ∧
        l.locked_by_user_id = user.id ∧ now ≤ l.expires_at := by
      rcases hlock with hadm | hl'
      · exact absurd hadm hrole
      · exact hl'
    have hr : (user.role == "admin") = false := beq_eq_false_iff_ne.mpr hrole
    have hiss : (db.annotation_locks.find? (fun l =>
        l.annotation_set_id == annotation_set_id &&
        l.dataset_item_id == item_id &&
        l.locked_by_user_id == user.id &&
        decide (now ≤ l.expires_at))).isSome = true :=
      (replace_lock_guard_iff db item_id annotation_set_id user now).mpr hlock'
    refine ⟨e, ?_, hs⟩
    simp only [replace_annotations, hacc, hset, hr, Bool.false_eq_true,
      if_false, hiss, Bool.not_true, he]

/-- Claim C2: with item access held and the annotation set present, a
non-admin replace fails with 409 when the actor holds no unexpired lock on
exactly that pair; it succeeds (for a payload whose class references all
resolve) once the actor holds such a lock; and an admin succeeds regardless
of lock state. -/
theorem C2_replace_requires_lock (db : Db) (item_id : Int)
    (payload : List AnnotationIn) (annotation_set_id : Int) (user : User)
    (now : Int) (item : DatasetItem) (st : AnnotationSet)
    (hacc : require_item_access item_id db user = .ok item)
    (hset : db.annotation_sets.find?
      (fun s => s.id == annotation_set_id) = some st) :
    (user.role ≠ "admin" →
      ¬ (∃ l ∈ db.annotation_locks,
          l.annotation_set_id = annotation_set_id ∧
          l.dataset_item_id = item_id ∧
          l.locked_by_user_id = user.id ∧ now ≤ l.expires_at) →
      replace_annotations db item_id payload annotation_set_id user now =
        .err db ⟨409, "no active lock (open image again to acquire lock)"⟩) ∧
    (user.role ≠ "admin" →
      (∃ l ∈ db.annotation_locks,
          l.annotation_set_id = annotation_set_id ∧
          l.dataset_item_id = item_id ∧
          l.locked_by_user_id = user.id ∧ now ≤ l.expires_at) →
      (∀ a ∈ payload,
        (db.label_classes.find? (fun c => c.id == a.class_id)).isSome) →
      ∃ db' out,
        replace_annotations db item_id payload annotation_set_id user now =
          .ok db' out) ∧
    (user.role = "admin" →
      (∀ a ∈ payload,
        (db.label_classes.find? (fun c => c.id == a.class_id)).isSome) →
      ∃ db' out,
        replace_annotations db item_id payload annotation_set_id user now =
          .ok db' out) :=
  ⟨fun hrole hnolock => replace_err409_of_nolock db item_id payload
      annotation_set_id user now item st hacc hset hrole hnolock,
   fun _ hlock hval => replace_ok_of_valid db item_id payload
      annotation_set_id user now item st hacc hset (Or.inr hlock) hval,
   fun hrole hval => replace_ok_of_valid db item_id payload
      annotation_set_id user now item st hacc hset (Or.inl hrole) hval⟩

/-- Witness for C2 at a concrete world: the same actor fails before holding
the lock and succeeds while holding it; the admin succeeds with no lock. -/
theorem C2_witness :
    require_item_access 7 w_db_locked w_user = .ok ⟨7, 1⟩ ∧
    w_db_locked.annotation_sets.find? (fun s => s.id == (1 : Int)) =
      some ⟨1, 1, "default", "manual", none⟩ ∧
    ((w_user.role ≠ "admin" →
      ¬ (∃ l ∈ w_db_locked.annotation_locks,
          l.annotation_set_id = 1 ∧ l.dataset_item_id = 7 ∧
          l.locked_by_user_id = w_user.id ∧ (10 : Int) ≤ l.expires_at) →
      replace_annotations w_db_locked 7 [w_in_valid] 1 w_user 10 =
        .err w_db_locked
          ⟨409, "no active lock (open image again to acquire lock)"⟩) ∧
    (w_user.role ≠ "admin" →
      (∃ l ∈ w_db_locked.annotation_locks,
          l.annotation_set_id = 1 ∧ l.dataset_item_id = 7 ∧
          l.locked_by_user_id = w_user.id ∧ (10 : Int) ≤ l.expires_at) →
      (∀ a ∈ [w_in_valid],
        (w_db_locked.label_classes.find?
          (fun c => c.id == a.class_id)).isSome) →
      ∃ db' out,
        replace_annotations w_db_locked 7 [w_in_valid] 1 w_user 10 =
          .ok db' out) ∧
    (w_user.role = "admin" →
      (∀ a ∈ [w_in_valid],
        (w_db_locked.label_classes.find?
          (fun c => c.id == a.class_id)).isSome) →
      ∃ db' out,
        replace_annotations w_db_locked 7 [w_in_valid] 1 w_user 10 =
          .ok db' out)) :=
  ⟨rfl, rfl,
   C2_replace_requires_lock w_db_locked 7 [w_in_valid] 1 w_user 10 ⟨7, 1⟩
     ⟨1, 1, "default", "manual", none⟩ rfl rfl⟩

/-- Claim C6: when the lock guard passes but some submitted annotation has
a class id matching no label-class row, the whole replace fails with 400 and
the committed state is exactly the original database: the delete and all
prior inserts are pending and roll back, so zero annotations are written. -/
theorem C6_replace_all_or_nothing (db : Db) (item_id : Int)
    (payload : List AnnotationIn) (annotation_set_id : Int) (user : User)
    (now : Int) (item : DatasetItem) (st : AnnotationSet)
    (hacc : require_item_access item_id db user = .ok item)
    (hset : db.annotation_sets.find?
      (fun s => s.id == annotation_set_id) = some st)
    (hlock : user.role = "admin" ∨
      ∃ l ∈ db.annotation_locks,
        l.annotation_set_id = annotation_set_id ∧
        l.dataset_item_id = item_id ∧
        l.locked_by_user_id = user.id ∧ now ≤ l.expires_at)
    (hbad : ∃ a ∈ payload,
      db.label_classes.find? (fun c => c.id == a.class_id) = none) :
    ∃ e, replace_annotations db item_id payload annotation_set_id user now =
        .err db e ∧ e.status = 400 :=
  replace_err400_of_invalid db item_id payload annotation_set_id user now
    item st hacc hset hlock hbad

/-- Witness for C6: one valid and one dangling class reference — the call
answers 400 and the committed state is the untouched original database. -/
theorem C6_witness :
    require_item_access 7 w_db_locked w_user = .ok ⟨7, 1⟩ ∧
    w_db_locked.annotation_sets.find? (fun s => s.id == (1 : Int)) =
      some ⟨1, 1, "default", "manual", none⟩ ∧
    (w_user.role = "admin" ∨
      ∃ l ∈ w_db_locked.annotation_locks,
        l.annotation_set_id = 1 ∧ l.dataset_item_id = 7 ∧
        l.locked_by_user_id = w_user.id ∧ (10 : Int) ≤ l.expires_at) ∧
    (∃ a ∈ [w_in_valid, w_in_invalid],
      w_db_locked.label_classes.find? (fun c => c.id == a.class_id) = none) ∧
    (∃ e, replace_annotations w_db_locked 7 [w_in_valid, w_in_invalid] 1
        w_user 10 = .err w_db_locked e ∧ e.status = 400) :=
  ⟨rfl, rfl, by decide, by decide,
   C6_replace_all_or_nothing w_db_locked 7 [w_in_valid, w_in_invalid] 1
     w_user 10 ⟨7, 1⟩ ⟨1, 1, "default", "manual", none⟩ rfl rfl
     (by decide) (by decide)⟩

/-- Claim C8, counterexample: class 9 exists but belongs to project 2,
while item 7 lives in project 1 — yet replace accepts it and writes an
annotation referencing class 9, instead of failing with 400 as the claim
requires. The validation at annotations.py:210 matches on `LabelClass.id`
alone, with no project scoping. -/
theorem C8_counterexample :
    w_db.label_classes.find? (fun c => c.id == (9 : Int)) =
      some ⟨9, 2, "cat"⟩ ∧
    (w_db.datasets.find? (fun d => d.id == (1 : Int))).map
      Dataset.project_id = some 1 ∧
    rr_is_ok (replace_annotations w_db 7 [w_in_foreign] 1 w_admin 0) = true ∧
    (rr_db (replace_annotations w_db 7 [w_in_foreign] 1 w_admin 0)).annotations.map
      (fun a => a.class_id) = [9] := by
  refine ⟨rfl, rfl, rfl, rfl⟩

/-- Claim C8 (amended): with access held, the set present and the lock
guard passing, replace fails with 400 exactly when some submitted class id
matches no `label_classes` row at all — existence is checked globally by id,
so a class id that exists but belongs to a different project passes the
check. -/
theorem C8_class_check_is_global (db : Db) (item_id : Int)
    (payload : List AnnotationIn) (annotation_set_id : Int) (user : User)
    (now : Int) (item : DatasetItem) (st : AnnotationSet)
    (hacc : require_item_access item_id db user = .ok item)
    (hset : db.annotation_sets.find?
      (fun s => s.id == annotation_set_id) = some st)
    (hlock : user.role = "admin" ∨
      ∃ l ∈ db.annotation_locks,
        l.annotation_set_id = annotation_set_id ∧
        l.dataset_item_id = item_id ∧
        l.locked_by_user_id = user.id ∧ now ≤ l.expires_at) :
    ((∃ db' e,
        replace_annotations db item_id payload annotation_set_id user now =
          .err db' e ∧ e.status = 400) ↔
      ∃ a ∈ payload,
        db.label_classes.find? (fun c => c.id == a.class_id) = none) := by
  by_cases hval : ∀ a ∈ payload,
      (db.label_classes.find? (fun c => c.id == a.class_id)).isSome
  · have hok : ∃ db' out,
        replace_annotations db item_id payload annotation_set_id user now =
          .ok db' out := by
      exact replace_ok_of_valid db item_id payload annotation_set_id
        user now item st hacc hset hlock hval
    obtain ⟨db', out, hok⟩ := hok
    constructor
    · rintro ⟨db'', e, herr, hstat⟩
      rw [hok] at herr
      exact RResult.noConfusion herr
    · rintro ⟨a, ha, hnone⟩
      have := hval a ha
      rw [hnone] at this
      simp at this
  · push_neg at hval
    obtain ⟨a, ha, hnone⟩ := hval
    have hnone' : db.label_classes.find? (fun c => c.id == a.class_id) =
        none := by
      cases hcc : db.label_classes.find? (fun c => c.id == a.class_id) with
      | none => rfl
      | some c => rw [hcc] at hnone; simp at hnone
    obtain ⟨e, he, hs⟩ := replace_err400_of_invalid db item_id payload
      annotation_set_id user now item st hacc hset hlock ⟨a, ha, hnone'⟩
    constructor
    · intro _
      exact ⟨a, ha, hnone'⟩
    · intro _
      exact ⟨db, e, he, hs⟩

/-- Witness for C8 (amended) at the locked concrete world with one dangling
class reference in the payload. -/
theorem C8_witness :
    require_item_access 7 w_db_locked w_user = .ok ⟨7, 1⟩ ∧
    w_db_locked.annotation_sets.find? (fun s => s.id == (1 : Int)) =
      some ⟨1, 1, "default", "manual", none⟩ ∧
    (w_user.role = "admin" ∨
      ∃ l ∈ w_db_locked.annotation_locks,
        l.annotation_set_id = 1 ∧ l.dataset_item_id = 7 ∧
        l.locked_by_user_id = w_user.id ∧ (10 : Int) ≤ l.expires_at) ∧
    ((∃ db' e,
        replace_annotations w_db_locked 7 [w_in_invalid] 1 w_user 10 =
          .err db' e ∧ e.status = 400) ↔
      ∃ a ∈ [w_in_invalid],
        w_db_locked.label_classes.find?
          (fun c => c.id == a.class_id) = none) :=
  ⟨rfl, rfl, by decide,
   C8_class_check_is_global w_db_locked 7 [w_in_invalid] 1 w_user 10 ⟨7, 1⟩
     ⟨1, 1, "default", "manual", none⟩ rfl rfl (by decide)⟩

theorem update_job_progress_some (job : Job) (st : Option String) (p : Rat)
    (ms : Option String) (now : Int) :
    (update_job job st (some p) ms now).progress = p := by
  cases st <;> cases ms <;> rfl

theorem update_job_message_some (job : Job) (st : Option String)
    (pr : Option Rat) (m : String) (now : Int) :
    (update_job job st pr (some m) now).message = m := by
  cases st <;> cases pr <;> rfl

/-- Filtering for a set id right after wiping that set id yields nothing. -/
theorem filter_wiped (l : List Annotation ) (x : Int) :
    (l.filter (fun a => !(a.annotation_set_id == x))).filter
      (fun a => a.annotation_set_id == x) = [] := by
  induction l with
  | nil => rfl
  | cons a rest ih =>
    cases hb : a.annotation_set_id == x with
    | true => simp [List.filter_cons, hb, ih]
    | false => simp [List.filter_cons, hb, ih]

/-- When every prediction of a batch resolves to no usable project class,
the inner loop writes nothing and only advances the skip counter. -/
theorem process_preds_no_match (env : AutoEnv) (classes : List LabelClass)
    (aset_id item_id : Int) (now : Int) (preds : List Pred) (db : Db)
    (created skipped : Nat)
    (hall : ∀ p ∈ preds, pred_target env classes p = none ∨
      pred_target env classes p = some 0) :
    ∃ k, process_preds env classes aset_id item_id now preds db created
      skipped = (db, created, k) := by
  induction preds generalizing skipped with
  | nil => exact ⟨skipped, rfl⟩
  | cons p rest ih =>
    have hall' : ∀ q ∈ rest, pred_target env classes q = none ∨
        pred_target env classes q = some 0 :=
      fun q hq => hall q (List.mem_cons_of_mem p hq)
    rcases hall p (List.mem_cons_self p rest) with h | h
    · simp only [process_preds, h]
      exact ih (skipped + 1) hall'
    · simp [process_preds, h]
      exact ih (skipped + 1) hall'

/-- When every prediction on every remaining item is unmatched, the item
loop creates no annotation, keeps the created count at zero, leaves the
annotation table unchanged, and keeps the job row present. -/
theorem auto_loop_no_match (env : AutoEnv) (classes : List LabelClass)
    (aset_id : Int) (total : Nat) (now : Int) (job_id : Int) :
    ∀ (items : List DatasetItem) (idx : Nat) (db : Db) (job : Job)
      (skipped : Nat),
      (∀ it ∈ items, ∀ preds, env.predict it.id = .ok preds →
        ∀ p ∈ preds, pred_target env classes p = none ∨
          pred_target env classes p = some 0) →
      job.id = job_id →
      db_find_job db job_id = some job →
      ∃ db' job' skipped',
        auto_annotate_loop env classes aset_id total now items idx db job 0
          skipped = (db', job', 0, skipped') ∧
        db'.annotations = db.annotations ∧
        job'.id = job_id ∧
        db_find_job db' job_id = some job' := by
  intro items
  induction items with
  | nil =>
    intro idx db job skipped _ hjid hfind
    exact ⟨db, job, skipped, rfl, rfl, hjid, hfind⟩
  | cons it rest ih =>
    intro idx db job skipped hall hjid hfind
    have hall' : ∀ x ∈ rest, ∀ preds, env.predict x.id = .ok preds →
        ∀ p ∈ preds, pred_target env classes p = none ∨
          pred_target env classes p = some 0 :=
      fun x hx => hall x (List.mem_cons_of_mem it hx)
    cases himg : env.img_exists it.id with
    | false =>
      simp only [auto_annotate_loop, himg, Bool.not_false, if_true]
      exact ih (idx + 1) db job skipped hall' hjid hfind
    | true =>
      cases hpred : env.predict it.id with
      | error e =>
        simp only [auto_annotate_loop, himg, Bool.not_true,
          Bool.false_eq_true, if_false, hpred, update_job_db]
        obtain ⟨db', job', skipped', hloop, hann, hjid', hfind'⟩ :=
          ih (idx + 1)
            (db_set_job db (update_job job none
              (some ((idx : Rat) / (total : Rat)))
              (some ("error processing " ++ toString idx ++ "/" ++
                toString total ++ ": " ++ e)) now))
            (update_job job none (some ((idx : Rat) / (total : Rat)))
              (some ("error processing " ++ toString idx ++ "/" ++
                toString total ++ ": " ++ e)) now)
            skipped hall' (by rw [update_job_id_eq]; exact hjid)
            (db_find_job_set db job_id job _ hfind
              (update_job_id_eq _ _ _ _ _))
        exact ⟨db', job', skipped', hloop, hann, hjid', hfind'⟩
      | ok preds =>
        obtain ⟨k, hk⟩ := process_preds_no_match env classes aset_id it.id
          now preds db 0 skipped
          (fun p hp => hall it (List.mem_cons_self it rest) preds hpred p hp)
        simp only [auto_annotate_loop, himg, Bool.not_true,
          Bool.false_eq_true, if_false, hpred, hk, update_job_db]
        obtain ⟨db', job', skipped', hloop, hann, hjid', hfind'⟩ :=
          ih (idx + 1)
            (db_set_job db (update_job job none
              (some ((idx : Rat) / (total : Rat)))
              (some ("processed " ++ toString idx ++ "/" ++
                toString total ++ " (" ++ toString 0 ++ " created)")) now))
            (update_job job none (some ((idx : Rat) / (total : Rat)))
              (some ("processed " ++ toString idx ++ "/" ++
                toString total ++ " (" ++ toString 0 ++ " created)")) now)
            k hall' (by rw [update_job_id_eq]; exact hjid)
            (db_find_job_set db job_id job _ hfind
              (update_job_id_eq _ _ _ _ _))
        exact ⟨db', job', skipped', hloop, hann, hjid', hfind'⟩

/-- The tail of the zero-overlap argument, over the state as of the end of
the device fallback: the run ends `success` with a `created 0` terminal
message and writes no annotation into the run's fresh set. -/
theorem auto_rest_zero_overlap (env : AutoEnv) (db : Db) (job : Job)
    (payload : AutoPayload) (now : Int) (job_id : Int) (ds : Dataset)
    (mw : ModelWeight)
    (hjid : job.id = job_id)
    (hfind : db_find_job db job_id = some job)
    (hds : db.datasets.find? (fun d =>
      d.id == payload.dataset_id && d.project_id == job.project_id) = some ds)
    (hmw : db.model_weights.find? (fun m =>
      m.id == payload.model_id && m.project_id == job.project_id) = some mw)
    (hfw : mw.framework = "ultralytics")
    (hwx : env.weights_exists = true)
    (hitems : db.dataset_items.filter
      (fun it => it.dataset_id == payload.dataset_id) ≠ [])
    (hcls : db.label_classes.filter
      (fun c => c.project_id == job.project_id) ≠ [])
    (hzero : ∀ it ∈ db.dataset_items, it.dataset_id = payload.dataset_id →
      ∀ preds, env.predict it.id = .ok preds →
      ∀ p ∈ preds,
        pred_target env (db.label_classes.filter
          (fun c => c.project_id == job.project_id)) p = none ∨
        pred_target env (db.label_classes.filter
          (fun c => c.project_id == job.project_id)) p = some 0) :
    ∃ jfin,
      db_find_job (auto_annotate_rest env db job payload now) job_id =
        some jfin ∧
      jfin.status = "success" ∧
      jfin.progress = 1 ∧
      (∃ k, jfin.message = auto_done_message 0 k) ∧
      (auto_annotate_rest env db job payload now).annotations.filter
        (fun a => a.annotation_set_id == db.next_aset_id) = [] := by
  have hcond : (mw.framework != "ultralytics" || !env.weights_exists) =
      false := by
    rw [hfw, hwx]
    decide
  have hlen : ((db.dataset_items.filter
      (fun it => it.dataset_id == payload.dataset_id)).insertionSort
      (fun a b => a.id ≤ b.id)).length =
      (db.dataset_items.filter
        (fun it => it.dataset_id == payload.dataset_id)).length :=
    (List.perm_insertionSort _ _).length_eq
  have htot : ¬ (((db.dataset_items.filter
      (fun it => it.dataset_id == payload.dataset_id)).insertionSort
      (fun a b => a.id ≤ b.id)).length = 0) := by
    rw [hlen]
    intro hz
    exact hitems (List.length_eq_zero.mp hz)
  have hclsb : (db.label_classes.filter
      (fun c => c.project_id == job.project_id)).isEmpty = false := by
    cases hc : db.label_classes.filter
        (fun c => c.project_id == job.project_id) with
    | nil => exact absurd hc hcls
    | cons a l => rfl
  have hallitems : ∀ it ∈ (db.dataset_items.filter
      (fun it => it.dataset_id == payload.dataset_id)).insertionSort
      (fun a b => a.id ≤ b.id),
      ∀ preds, env.predict it.id = .ok preds →
      ∀ p ∈ preds,
        pred_target env (db.label_classes.filter
          (fun c => c.project_id == job.project_id)) p = none ∨
        pred_target env (db.label_classes.filter
          (fun c => c.project_id == job.project_id)) p = some 0 := by
    intro it hit
    have hmem : it ∈ db.dataset_items.filter
        (fun it => it.dataset_id == payload.dataset_id) :=
      ((List.perm_insertionSort _ _).mem_iff).mp hit
    have h2 := List.mem_filter.mp hmem
    exact hzero it h2.1 (by simpa using h2.2)
  obtain ⟨db', job', skipped', hloop, hann, hjid', hfind'⟩ :=
    auto_loop_no_match env
      (db.label_classes.filter (fun c => c.project_id == job.project_id))
      db.next_aset_id
      ((db.dataset_items.filter
        (fun it => it.dataset_id == payload.dataset_id)).insertionSort
        (fun a b => a.id ≤ b.id)).length
      now job_id
      ((db.dataset_items.filter
        (fun it => it.dataset_id == payload.dataset_id)).insertionSort
        (fun a b => a.id ≤ b.id))
      1
      { db with
        annotation_sets := db.annotation_sets ++
          [⟨db.next_aset_id, job.project_id, "auto_run_" ++ env.run_tag,
            "auto", some mw.id⟩],
        next_aset_id := db.next_aset_id + 1,
        annotations := db.annotations.filter
          (fun a => !(a.annotation_set_id == db.next_aset_id)) }
      job 0 hallitems hjid hfind
  refine ⟨update_job job' (some "success") (some 1)
    (some (auto_done_message 0 skipped')) now, ?_, ?_, ?_, ⟨skipped', ?_⟩, ?_⟩
  · simp only [auto_annotate_rest, hds, hmw, hcond, Bool.false_eq_true,
      if_false, if_neg htot, hclsb, hloop, update_job_db]
    exact db_find_job_set db' job_id job' _ hfind'
      (update_job_id_eq _ _ _ _ _)
  · exact update_job_status_some _ _ _ _ _
  · exact update_job_progress_some _ _ _ _ _
  · exact update_job_message_some _ _ _ _ _
  · simp only [auto_annotate_rest, hds, hmw, hcond, Bool.false_eq_true,
      if_false, if_neg htot, hclsb, hloop, update_job_db,
      db_set_job_annotations]
    rw [hann]
    exact filter_wiped db.annotations db.next_aset_id

/-- Claim C7, counterexample: the model's vocabulary (`dog`) has zero
overlap with the project's (`car`) and no mapping exists, the dataset is
non-empty, yet the job ends in `success` — not `failed` — with the message
reporting the skipped unmatched prediction. There is no fail-fast
zero-overlap diagnostic in the code. -/
theorem C7_counterexample :
    c7_env.model_names = ["dog"] ∧
    c7_db.label_classes.map LabelClass.name = ["car"] ∧
    name_to_class_id c7_db.label_classes "dog" = none ∧
    c7_db.dataset_items ≠ [] ∧
    (db_find_job c7_result 1).map Job.status = some "success" ∧
    (db_find_job c7_result 1).map Job.message =
      some "done. created 0 annotations, skipped 1 unmatched predictions" := by
  refine ⟨rfl, rfl, by decide, by decide, by decide, by decide⟩

/-- Claim C7 (amended): an auto-annotate job over a non-empty dataset whose
model vocabulary has zero usable overlap with the project's classes (every
prediction of every item resolves to no project class) terminates in status
`success` with progress 1 and a terminal message reporting 0 created
annotations, and writes no annotation into the run's fresh annotation set —
it does not fail with a vocabulary diagnostic. -/
theorem C7_zero_overlap_silent_success (env : AutoEnv) (db : Db)
    (job_id : Int) (payload : AutoPayload) (now : Int) (job0 : Job)
    (ds : Dataset) (mw : ModelWeight)
    (hfind : db_find_job db job_id = some job0)
    (hds : db.datasets.find? (fun d =>
      d.id == payload.dataset_id && d.project_id == job0.project_id) = some ds)
    (hmw : db.model_weights.find? (fun m =>
      m.id == payload.model_id && m.project_id == job0.project_id) = some mw)
    (hfw : mw.framework = "ultralytics")
    (hwx : env.weights_exists = true)
    (hitems : db.dataset_items.filter
      (fun it => it.dataset_id == payload.dataset_id) ≠ [])
    (hcls : db.label_classes.filter
      (fun c => c.project_id == job0.project_id) ≠ [])
    (hzero : ∀ it ∈ db.dataset_items, it.dataset_id = payload.dataset_id →
      ∀ preds, env.predict it.id = .ok preds →
      ∀ p ∈ preds,
        pred_target env (db.label_classes.filter
          (fun c => c.project_id == job0.project_id)) p = none ∨
        pred_target env (db.label_classes.filter
          (fun c => c.project_id == job0.project_id)) p = some 0) :
    ∃ jfin,
      db_find_job (auto_annotate_task env db job_id payload now) job_id =
        some jfin ∧
      jfin.status = "success" ∧
      jfin.progress = 1 ∧
      (∃ k, jfin.message = auto_done_message 0 k) ∧
      (auto_annotate_task env db job_id payload now).annotations.filter
        (fun a => a.annotation_set_id == db.next_aset_id) = [] := by
  have hjid0 : job0.id = job_id := by
    have := List.find?_some hfind
    simpa using this
  cases hdev : str_lower payload.device != "cpu" && !env.cuda_available with
  | true =>
    have htask : auto_annotate_task env db job_id payload now =
        auto_annotate_rest env
          (db_set_job (db_set_job db
            (update_job job0 (some "running") (some 0) (some "starting") now))
            (update_job
              (update_job job0 (some "running") (some 0) (some "starting") now)
              none none (some "cuda not available, falling back to cpu") now))
          (update_job
            (update_job job0 (some "running") (some 0) (some "starting") now)
            none none (some "cuda not available, falling back to cpu") now)
          payload now := by
      simp only [auto_annotate_task, hfind, hdev, if_true, update_job_db]
    rw [htask]
    have hproj : (update_job
        (update_job job0 (some "running") (some 0) (some "starting") now)
        none none (some "cuda not available, falling back to cpu") now).project_id =
        job0.project_id := by
      rw [update_job_project_id_eq, update_job_project_id_eq]
    have hjid1 : (update_job
        (update_job job0 (some "running") (some 0) (some "starting") now)
        none none (some "cuda not available, falling back to cpu") now).id =
        job_id := by
      rw [update_job_id_eq, update_job_id_eq]
      exact hjid0
    have hfind1 := db_find_job_set db job_id job0
      (update_job job0 (some "running") (some 0) (some "starting") now)
      hfind (update_job_id_eq _ _ _ _ _)
    have hfind2 := db_find_job_set _ job_id _
      (update_job
        (update_job job0 (some "running") (some 0) (some "starting") now)
        none none (some "cuda not available, falling back to cpu") now)
      hfind1 (update_job_id_eq _ _ _ _ _)
    exact auto_rest_zero_overlap env _ _ payload now job_id ds mw hjid1
      hfind2 (by rw [hproj]; exact hds) (by rw [hproj]; exact hmw) hfw hwx
      hitems (by rw [hproj]; exact hcls) (by rw [hproj]; exact hzero)
  | false =>
    have htask : auto_annotate_task env db job_id payload now =
        auto_annotate_rest env
          (db_set_job db
            (update_job job0 (some "running") (some 0) (some "starting") now))
          (update_job job0 (some "running") (some 0) (some "starting") now)
          payload now := by
      simp only [auto_annotate_task, hfind, hdev, Bool.false_eq_true,
        if_false, update_job_db]
    rw [htask]
    have hproj : (update_job job0 (some "running") (some 0) (some "starting")
        now).project_id = job0.project_id :=
      update_job_project_id_eq _ _ _ _ _
    have hjid1 : (update_job job0 (some "running") (some 0) (some "starting")
        now).id = job_id := by
      rw [update_job_id_eq]
      exact hjid0
    have hfind1 := db_find_job_set db job_id job0
      (update_job job0 (some "running") (some 0) (some "starting") now)
      hfind (update_job_id_eq _ _ _ _ _)
    exact auto_rest_zero_overlap env _ _ payload now job_id ds mw hjid1
      hfind1 (by rw [hproj]; exact hds) (by rw [hproj]; exact hmw) hfw hwx
      hitems (by rw [hproj]; exact hcls) (by rw [hproj]; exact hzero)

/-- Witness for C7 (amended) at the concrete zero-overlap world. -/
theorem C7_witness :
    db_find_job c7_db 1 = some c7_job0 ∧
    c7_db.datasets.find? (fun d => d.id == c7_payload.dataset_id &&
      d.project_id == c7_job0.project_id) = some ⟨1, 1⟩ ∧
    c7_db.model_weights.find? (fun m => m.id == c7_payload.model_id &&
      m.project_id == c7_job0.project_id) =
      some ⟨2, 1, "ultralytics", "m.pt"⟩ ∧
    (⟨2, 1, "ultralytics", "m.pt"⟩ : ModelWeight).framework = "ultralytics" ∧
    c7_env.weights_exists = true ∧
    c7_db.dataset_items.filter
      (fun it => it.dataset_id == c7_payload.dataset_id) ≠ [] ∧
    c7_db.label_classes.filter
      (fun c => c.project_id == c7_job0.project_id) ≠ [] ∧
    (∃ jfin,
      db_find_job (auto_annotate_task c7_env c7_db 1 c7_payload 10) 1 =
        some jfin ∧
      jfin.status = "success" ∧
      jfin.progress = 1 ∧
      (∃ k, jfin.message = auto_done_message 0 k) ∧
      (auto_annotate_task c7_env c7_db 1 c7_payload 10).annotations.filter
        (fun a => a.annotation_set_id == c7_db.next_aset_id) = []) :=
  ⟨by decide, by decide, by decide, rfl, rfl, by decide, by decide,
   C7_zero_overlap_silent_success c7_env c7_db 1 c7_payload 10 c7_job0
     ⟨1, 1⟩ ⟨2, 1, "ultralytics", "m.pt"⟩ (by decide) (by decide) (by decide)
     rfl rfl (by decide) (by decide)
     (by
       intro it hit hd preds hpreds p hp
       simp only [c7_env] at hpreds
       have hpe : preds = [c7_pred] := by
         injection hpreds with h
         exact h.symm
       subst hpe
       have hp1 : p = c7_pred := by simpa using hp
       subst hp1
       left
       decide)⟩

end App
